import Mathlib

set_option autoImplicit false

namespace DockerApi

/--
Verification development for the node-docker-api client library.

The library maps Docker Engine REST resources onto per-resource classes.
Every method builds a request descriptor and hands it to the external HTTP
transport collaborator (the modem) via
`modem.dial(call, callback(err, result))`, wrapping the callback in a
promise.  We shallowly embed the per-operation behaviour:

* JavaScript runtime values are modelled by `JValue` (`JValue.null` stands
  for both JS `null` and `undefined`; the code under proof treats the two
  identically: both are falsy, both make property access throw, and both
  make optional chaining short-circuit).
* The modem is opaque: a `Modem` is an abstract reference, and the
  transport callback delivery is a pair of an optional error and a result
  value, universally quantified in the theorems.
* Each operation contributes two definitions: `...Call` is the request
  descriptor object literal from the source, and `...Run` is the semantics
  of the dial callback, mapping the delivered `(err, result)` to an
  `Outcome`: the promise resolves, rejects, or a TypeError escapes the
  callback (the transport invokes callbacks asynchronously, so a throw
  inside the callback propagates outside the promise executor and the
  promise never settles; we model that as `Outcome.thrown`).
-/
inductive JValue where
  | null
  | bool (b : Bool)
  | num (n : Int)
  | str (s : String)
  | arr (elements : List JValue)
  | obj (fields : List (String × JValue))
  /-- A live byte stream handed over by the transport, modelled as the
  (finite) list of string chunks it will emit before its end event. -/
  | stream (chunks : List String)

/-- JS truthiness of a value. -/
def JValue.truthy : JValue → Bool
  | .null => false
  | .bool b => b
  | .num n => n != 0
  | .str s => s != ""
  | .arr _ => true
  | .obj _ => true
  | .stream _ => true

def JValue.isNull : JValue → Bool
  | .null => true
  | _ => false

/-- Property read `v[k]` for the cases the library exercises: `none` is JS
`undefined`.  Property access on `JValue.null` throws in JS; call sites
that can receive null branch on `.null` before using `get?`. -/
def JValue.get? : JValue → String → Option JValue
  | .obj fields, k => fields.lookup k
  | _, _ => none

/-- Property read defaulting to `undefined` (modelled `.null`). -/
def JValue.getD (v : JValue) (k : String) : JValue :=
  (v.get? k).getD .null

/-- JS string coercion as performed by template literals.  The library only
interpolates identifiers (strings at the TS level); for an absent value the
interpolation text is that of `undefined`, which `JValue.null` stands for
here (the absent-identifier situations in this code always arise from
`undefined`, not from a literal JS `null`).  Arrays are approximated by a
constant tag (JS would join the coerced elements with commas; no
identifier interpolated by this library is an array, so the case is
unreachable in the claims). -/
def JValue.interp : JValue → String
  | .null => "undefined"
  | .bool b => cond b "true" "false"
  | .num n => toString n
  | .str s => s
  | .arr _ => "[object Array]"
  | .obj _ => "[object Object]"
  | .stream _ => "[object Object]"

/-- Truthiness of `v.length` after an optional chain, i.e. whether the JS
test `!xs?.length` succeeds: true for `null`/`undefined`, for an empty
array or string, and for values without a `length` property (where the
read yields `undefined`). -/
def jsLenFalsy : JValue → Bool
  | .null => true
  | .arr xs => xs.isEmpty
  | .str s => s.isEmpty
  | _ => true

/-- Property write `v[k] = x` (used only by `commit`, whose options default
to a fresh object).  Insertion order is irrelevant to the claims. -/
def JValue.set (v : JValue) (k : String) (x : JValue) : JValue :=
  match v with
  | .obj fields => .obj ((fields.filter fun p => p.1 != k) ++ [(k, x)])
  | other => other

/-- The transport collaborator reference.  Opaque: only its identity
matters (every Handle and Manager shares the instance injected at
construction). -/
structure Modem where
  ref : Nat

/-- An error delivered by the transport callback.  The library never
inspects it, only forwards it, so its content is opaque. -/
structure ModemError where
  message : String

/-- One entry of a descriptor's status-code table: `true` (success) or a
human-readable error label. -/
inductive StatusEntry where
  | ok
  | label (msg : String)

/-- The request descriptor (the `call` object literal built by every
operation).  `options := none` models a call object without an `options`
key; `some v` models `options: v` where `v` may itself be `JValue.null`
(an omitted argument).  `file` records whether a file payload is
attached. -/
structure Descriptor where
  path : String
  method : String
  options : Option JValue := none
  statusCodes : List (Nat × StatusEntry)
  isStream : Bool := false
  hijack : Option JValue := none
  openStdin : Option JValue := none
  file : Bool := false
  authconfig : Option JValue := none
  registryconfig : Option JValue := none

/-- Class `Container` (container.ts).  `Warnings` is initialised to `[]`
and `data` is declared with a record type but never initialised, hence
`undefined` until an operation assigns it: we model it as
`Option JValue` with default `none`.  `Warnings` receives the raw callback
result in `update`, so it is kept as a `JValue`.  The eagerly constructed
`fs` and `exec` members are functions of `modem` and the container itself
and are modelled by `Container.fs` and `Container.exec` below. -/
structure Container where
  modem : Modem
  id : String
  Warnings : JValue := .arr []
  data : Option JValue := none

/-- Class `ContainerFs` (container.ts): the filesystem sub-handle. -/
structure ContainerFs where
  modem : Modem
  container : Container

/-- Class `ExecManager` (container.ts). -/
structure ExecManager where
  modem : Modem
  container : Container

/-- The `fs` member built in the `Container` constructor:
`new ContainerFs(this.modem, this)`. -/
def Container.fs (c : Container) : ContainerFs := ⟨c.modem, c⟩

/-- The `exec` member built in the `Container` constructor:
`new ExecManager(this.modem, this)`. -/
def Container.exec (c : Container) : ExecManager := ⟨c.modem, c⟩

/-- Class `Exec` (container.ts).  `data` is initialised to the empty
object. -/
structure Exec where
  modem : Modem
  container : Container
  id : String
  data : JValue := .obj []

/-- Class `Image` (image.ts). -/
structure Image where
  modem : Modem
  id : String
  data : JValue := .obj []

/-- Class `Volume` (volume.ts). -/
structure Volume where
  modem : Modem
  id : String
  data : JValue := .obj []

/-- Class `Network` (network.ts). -/
structure Network where
  modem : Modem
  id : String
  data : JValue := .obj []

/-- Class `Secret` (secret.ts). -/
structure Secret where
  modem : Modem
  id : String
  data : JValue := .obj []

/-- Class `Service` (service.ts). -/
structure Service where
  modem : Modem
  id : String
  data : JValue := .obj []

/-- Class `Task` (task.ts). -/
structure Task where
  modem : Modem
  id : String
  data : JValue := .obj []

/-- Class `Node` (node.ts). -/
structure Node where
  modem : Modem
  id : String
  data : JValue := .obj []

/-- Class `Swarm` (swarm.ts): a singleton resource with no identifier. -/
structure Swarm where
  modem : Modem
  data : JValue := .obj []

/-- Class `Plugin` (plugin.ts).  The constructor's `id` parameter is
optional and untyped, so `id` holds a raw JS value (`JValue.null` when
omitted).  `Object.assign(plugin, conf)` copies `conf`'s own fields onto
the instance; we record them in `assigned` (the Docker API payloads never
carry keys named `modem` or `id`, so instance fields are not
overwritten). -/
structure Plugin where
  modem : Modem
  id : JValue := .null
  assigned : List (String × JValue) := []

/-- `Object.assign(plugin, conf)`: copies the own enumerable fields of an
object source; a `null`/`undefined` or primitive source contributes
nothing (the library only merges Docker API response objects). -/
def Plugin.assignConf (p : Plugin) (conf : JValue) : Plugin :=
  match conf with
  | .obj fields => { p with assigned := p.assigned ++ fields }
  | _ => p

/-- The per-resource managers (the `export default class` of each module):
each pairs only the transport reference. -/
structure ContainerManager where
  modem : Modem

structure ImageManager where
  modem : Modem

structure VolumeManager where
  modem : Modem

structure NetworkManager where
  modem : Modem

structure SecretManager where
  modem : Modem

structure ServiceManager where
  modem : Modem

structure TaskManager where
  modem : Modem

structure NodeManager where
  modem : Modem

/-- The top-level facade (docker.ts): one manager per resource kind plus
the shared modem.  The plugin manager slot is the `Plugin` class itself
(constructed without an id) and the swarm slot the singleton `Swarm`. -/
structure Docker where
  modem : Modem
  container : ContainerManager
  image : ImageManager
  volume : VolumeManager
  network : NetworkManager
  node : NodeManager
  plugin : Plugin
  secret : SecretManager
  service : ServiceManager
  swarm : Swarm
  task : TaskManager

/-- The `Docker` constructor body, given the modem built from the caller's
options. -/
def Docker.make (m : Modem) : Docker :=
  { modem := m
    container := ⟨m⟩
    image := ⟨m⟩
    volume := ⟨m⟩
    network := ⟨m⟩
    node := ⟨m⟩
    plugin := { modem := m }
    secret := ⟨m⟩
    service := ⟨m⟩
    swarm := { modem := m }
    task := ⟨m⟩ }

/-- The value a promise resolves with: a raw transport result, a handle, a
list of handles, or the `[stream, this]` pair of attach. -/
inductive RtVal where
  | json (v : JValue)
  | container (c : Container)
  | containers (cs : List Container)
  | exec (e : Exec)
  | image (i : Image)
  | images (l : List Image)
  | volume (v : Volume)
  | volumes (l : List Volume)
  | network (n : Network)
  | networks (l : List Network)
  | secret (s : Secret)
  | secrets (l : List Secret)
  | service (s : Service)
  | services (l : List Service)
  | task (t : Task)
  | tasks (l : List Task)
  | node (n : Node)
  | nodes (l : List Node)
  | plugin (p : Plugin)
  | plugins (l : List Plugin)
  | swarm (s : Swarm)
  | attach (stream : JValue) (c : Container)

/-- What the body of a dial callback does after the `if (err)` prologue:
it either resolves or lets a TypeError escape.  (Only the prologue ever
rejects; `tag`, whose success path performs a second dial, is modelled
separately.) -/
inductive KOut where
  | resolved (v : RtVal)
  | thrown

/-- The observable fate of an operation's promise.  `thrown` means an
exception escaped the (asynchronously invoked) callback, so the promise
never settles. -/
inductive Outcome where
  | resolved (v : RtVal)
  | rejected (e : ModemError)
  | thrown

def KOut.toOutcome : KOut → Outcome
  | .resolved v => .resolved v
  | .thrown => .thrown

def Outcome.isRejected : Outcome → Bool
  | .rejected _ => true
  | _ => false

def Outcome.isResolved : Outcome → Bool
  | .resolved _ => true
  | _ => false

/-- The callback prologue shared by every dial site:
`if (err) { reject(err); return }` followed by the body `k`. -/
def onDial (err : Option ModemError) (k : KOut) : Outcome :=
  match err with
  | some e => .rejected e
  | none => k.toOutcome

@[simp]
theorem KOut.toOutcome_not_rejected (k : KOut) : k.toOutcome.isRejected = false := by
  cases k <;> rfl

/-- JS `Array.prototype.map` with a callback that can throw: `none` when
the callback throws on some element (the exception propagates out of
`map`). -/
def jsMap {α : Type} (f : JValue → Option α) : List JValue → Option (List α)
  | [] => some []
  | x :: xs =>
    match f x with
    | none => none
    | some y => (jsMap f xs).map (y :: ·)

/-- Element mapper of the container manager's `list`:
`new Container(this.modem, conf.Id)` then `container.data = conf`.
Property access on a `null` element throws (hence `none`). -/
def confToContainer (m : Modem) (conf : JValue) : Option Container :=
  match conf with
  | .null => none
  | conf => some ⟨m, (conf.getD "Id").interp, .arr [], some conf⟩

/-- Element mapper of the image manager's `list` (identifier key `Id`). -/
def confToImage (m : Modem) (conf : JValue) : Option Image :=
  match conf with
  | .null => none
  | conf => some ⟨m, (conf.getD "Id").interp, conf⟩

/-- Element mapper of the volume manager's `list` (identifier key
`Name`). -/
def confToVolume (m : Modem) (conf : JValue) : Option Volume :=
  match conf with
  | .null => none
  | conf => some ⟨m, (conf.getD "Name").interp, conf⟩

/-- Element mapper of the network manager's `list` (identifier key
`Id`). -/
def confToNetwork (m : Modem) (conf : JValue) : Option Network :=
  match conf with
  | .null => none
  | conf => some ⟨m, (conf.getD "Id").interp, conf⟩

/-- Element mapper of the secret manager's `list` (identifier key
`Name`). -/
def confToSecret (m : Modem) (conf : JValue) : Option Secret :=
  match conf with
  | .null => none
  | conf => some ⟨m, (conf.getD "Name").interp, conf⟩

/-- Element mapper of the service manager's `list` (identifier key
`ID`). -/
def confToService (m : Modem) (conf : JValue) : Option Service :=
  match conf with
  | .null => none
  | conf => some ⟨m, (conf.getD "ID").interp, conf⟩

/-- Element mapper of the task manager's `list` (identifier key `ID`). -/
def confToTask (m : Modem) (conf : JValue) : Option Task :=
  match conf with
  | .null => none
  | conf => some ⟨m, (conf.getD "ID").interp, conf⟩

/-- Element mapper of the node manager's `list` (identifier key `ID`). -/
def confToNode (m : Modem) (conf : JValue) : Option Node :=
  match conf with
  | .null => none
  | conf => some ⟨m, (conf.getD "ID").interp, conf⟩

/-- Element mapper of the plugin `list`: the raw `conf.Id` becomes the id
and the body is merged onto the instance by `Object.assign`. -/
def confToPlugin (m : Modem) (conf : JValue) : Option Plugin :=
  match conf with
  | .null => none
  | conf => some (Plugin.assignConf { modem := m, id := conf.getD "Id" } conf)

/-- Descriptor of `Docker.auth` (docker.ts). -/
def Docker.authCall (_d : Docker) (opts : JValue) : Descriptor :=
  { path := "/auth?"
    method := "POST"
    options := some opts
    statusCodes := [(200, .ok), (204, .ok), (500, .label "server error")] }

/-- Callback of `Docker.auth`: resolves the parsed body. -/
def Docker.authRun (_d : Docker) (err : Option ModemError) (res : JValue) : Outcome :=
  onDial err (.resolved (.json res))

/-- Descriptor of `Docker.info` (docker.ts): no `options` key. -/
def Docker.infoCall (_d : Docker) : Descriptor :=
  { path := "/info?"
    method := "GET"
    statusCodes := [(200, .ok), (500, .label "server error")] }

/-- Callback of `Docker.info`. -/
def Docker.infoRun (_d : Docker) (err : Option ModemError) (res : JValue) : Outcome :=
  onDial err (.resolved (.json res))

/-- Descriptor of `Docker.version` (docker.ts). -/
def Docker.versionCall (_d : Docker) : Descriptor :=
  { path := "/version?"
    method := "GET"
    statusCodes := [(200, .ok), (500, .label "server error")] }

/-- Callback of `Docker.version`. -/
def Docker.versionRun (_d : Docker) (err : Option ModemError) (res : JValue) : Outcome :=
  onDial err (.resolved (.json res))

/-- Descriptor of `Docker.ping` (docker.ts). -/
def Docker.pingCall (_d : Docker) : Descriptor :=
  { path := "/_ping?"
    method := "GET"
    statusCodes := [(200, .ok), (500, .label "server error")] }

/-- Callback of `Docker.ping`. -/
def Docker.pingRun (_d : Docker) (err : Option ModemError) (res : JValue) : Outcome :=
  onDial err (.resolved (.json res))

/-- Descriptor of `Docker.events` (docker.ts): a streamed request. -/
def Docker.eventsCall (_d : Docker) (opts : JValue) : Descriptor :=
  { path := "/events?"
    method := "GET"
    options := some opts
    isStream := true
    statusCodes := [(200, .ok), (500, .label "server error")] }

/-- Callback of `Docker.events`: resolves the live stream. -/
def Docker.eventsRun (_d : Docker) (err : Option ModemError) (res : JValue) : Outcome :=
  onDial err (.resolved (.json res))

/-- Descriptor of `Exec.create` (container.ts). -/
def Exec.createCall (e : Exec) (opts : JValue) : Descriptor :=
  { path := "/containers/" ++ e.container.id ++ "/exec?"
    method := "POST"
    options := some opts
    statusCodes := [(200, .ok), (201, .ok), (404, .label "no such container"),
      (409, .label "container is paused"), (500, .label "server error")] }

/-- Callback of `Exec.create`: builds `new Exec(modem, container, conf.Id)`
with `exec.data = conf`; reading `conf.Id` on a missing body throws. -/
def Exec.createRun (e : Exec) (err : Option ModemError) (res : JValue) : Outcome :=
  onDial err (
    match res with
    | .null => .thrown
    | conf => .resolved (.exec ⟨e.modem, e.container, (conf.getD "Id").interp, conf⟩))

/-- Descriptor of `Exec.start` (container.ts): streamed, with the hijack
and stdin options copied from `opts`. -/
def Exec.startCall (e : Exec) (opts : JValue) : Descriptor :=
  { path := "/exec/" ++ e.id ++ "/start?"
    method := "POST"
    options := some opts
    isStream := true
    hijack := opts.get? "hijack"
    openStdin := opts.get? "stdin"
    statusCodes := [(200, .ok), (404, .label "no such exec instance"),
      (409, .label "container is paused")] }

/-- Callback of `Exec.start`: resolves the stream. -/
def Exec.startRun (_e : Exec) (err : Option ModemError) (res : JValue) : Outcome :=
  onDial err (.resolved (.json res))

/-- Descriptor of `Exec.resize` (container.ts). -/
def Exec.resizeCall (e : Exec) (opts : JValue) : Descriptor :=
  { path := "/exec/" ++ e.id ++ "/resize?"
    method := "POST"
    options := some opts
    statusCodes := [(201, .ok), (404, .label "no such exec instance")] }

/-- Callback of `Exec.resize`. -/
def Exec.resizeRun (_e : Exec) (err : Option ModemError) (res : JValue) : Outcome :=
  onDial err (.resolved (.json res))

/-- Descriptor of `Exec.status` (container.ts). -/
def Exec.statusCall (e : Exec) (opts : JValue) : Descriptor :=
  { path := "/exec/" ++ e.id ++ "/json?"
    method := "GET"
    options := some opts
    statusCodes := [(200, .ok), (404, .label "no such exec instance"),
      (500, .label "server error")] }

/-- Callback of `Exec.status`: note the new handle's identifier is taken
from the response body (`conf.Id`), not from the receiver. -/
def Exec.statusRun (e : Exec) (err : Option ModemError) (res : JValue) : Outcome :=
  onDial err (
    match res with
    | .null => .thrown
    | conf => .resolved (.exec ⟨e.modem, e.container, (conf.getD "Id").interp, conf⟩))

/-- `ExecManager.get(id)`: bare `new Exec(modem, container, id)`. -/
def ExecManager.get (em : ExecManager) (id : String) : Exec :=
  ⟨em.modem, em.container, id, .obj []⟩

/-- Descriptor of `ExecManager.create` (container.ts). -/
def ExecManager.createCall (em : ExecManager) (opts : JValue) : Descriptor :=
  { path := "/containers/" ++ em.container.id ++ "/exec?"
    method := "POST"
    options := some opts
    statusCodes := [(200, .ok), (201, .ok), (404, .label "no such container"),
      (409, .label "container is paused"), (500, .label "server error")] }

/-- Callback of `ExecManager.create`. -/
def ExecManager.createRun (em : ExecManager) (err : Option ModemError) (res : JValue) : Outcome :=
  onDial err (
    match res with
    | .null => .thrown
    | conf => .resolved (.exec ⟨em.modem, em.container, (conf.getD "Id").interp, conf⟩))

/-- Descriptor of `ContainerFs.info` (container.ts). -/
def ContainerFs.infoCall (f : ContainerFs) (opts : JValue) : Descriptor :=
  { path := "/containers/" ++ f.container.id ++ "/archive?"
    method := "HEAD"
    options := some opts
    isStream := true
    statusCodes := [(200, .ok), (404, .label "bad request"),
      (500, .label "server error")] }

/-- Callback of `ContainerFs.info`. -/
def ContainerFs.infoRun (_f : ContainerFs) (err : Option ModemError) (res : JValue) : Outcome :=
  onDial err (.resolved (.json res))

/-- Descriptor of `ContainerFs.get` (container.ts): the `path` option is
interpolated into the request path, which therefore ends with the literal
ampersand, not the question mark. -/
def ContainerFs.getCall (f : ContainerFs) (opts : JValue) : Descriptor :=
  { path := "/containers/" ++ f.container.id ++ "/archive?path=" ++ (opts.getD "path").interp ++ "&"
    method := "GET"
    options := some opts
    isStream := true
    statusCodes := [(200, .ok), (400, .label "bad request"),
      (404, .label "no such container"), (500, .label "server error")] }

/-- Callback of `ContainerFs.get`: resolves the tar stream. -/
def ContainerFs.getRun (_f : ContainerFs) (err : Option ModemError) (res : JValue) : Outcome :=
  onDial err (.resolved (.json res))

/-- Descriptor of `ContainerFs.put` (container.ts): carries a file
payload. -/
def ContainerFs.putCall (f : ContainerFs) (opts : JValue) : Descriptor :=
  { path := "/containers/" ++ f.container.id ++ "/archive?"
    method := "PUT"
    options := some opts
    isStream := true
    file := true
    statusCodes := [(200, .ok), (400, .label "bad request"),
      (403, .label "permission denied"), (404, .label "no such container"),
      (500, .label "server error")] }

/-- Callback of `ContainerFs.put`. -/
def ContainerFs.putRun (_f : ContainerFs) (err : Option ModemError) (res : JValue) : Outcome :=
  onDial err (.resolved (.json res))

/-- Descriptor of `Container.status` (container.ts). -/
def Container.statusCall (c : Container) (opts : JValue) : Descriptor :=
  { path := "/containers/" ++ c.id ++ "/json?"
    method := "GET"
    options := some opts
    statusCodes := [(200, .ok), (404, .label "no such container"),
      (500, .label "server error")] }

/-- Callback of `Container.status`: resolves a freshly constructed
`new Container(modem, this.id)` whose `data` is the fetched body; the
receiver is untouched. -/
def Container.statusRun (c : Container) (err : Option ModemError) (res : JValue) : Outcome :=
  onDial err (.resolved (.container ⟨c.modem, c.id, .arr [], some res⟩))

/-- Descriptor of `Container.top` (container.ts). -/
def Container.topCall (c : Container) (opts : JValue) : Descriptor :=
  { path := "/containers/" ++ c.id ++ "/top?"
    method := "GET"
    options := some opts
    statusCodes := [(200, .ok), (404, .label "no such container"),
      (500, .label "server error")] }

/-- Callback of `Container.top`. -/
def Container.topRun (_c : Container) (err : Option ModemError) (res : JValue) : Outcome :=
  onDial err (.resolved (.json res))

/-- Descriptor of `Container.logs` (container.ts): streamed. -/
def Container.logsCall (c : Container) (opts : JValue) : Descriptor :=
  { path := "/containers/" ++ c.id ++ "/logs?"
    method := "GET"
    options := some opts
    isStream := true
    statusCodes := [(101, .ok), (200, .ok), (404, .label "no such container"),
      (500, .label "server error")] }

/-- Callback of `Container.logs`: resolves the stream. -/
def Container.logsRun (_c : Container) (err : Option ModemError) (res : JValue) : Outcome :=
  onDial err (.resolved (.json res))

/-- Descriptor of `Container.changes` (container.ts): options is the
literal empty object. -/
def Container.changesCall (c : Container) : Descriptor :=
  { path := "/containers/" ++ c.id ++ "/changes?"
    method := "GET"
    options := some (.obj [])
    statusCodes := [(200, .ok), (404, .label "no such container"),
      (500, .label "server error")] }

/-- Callback of `Container.changes`. -/
def Container.changesRun (_c : Container) (err : Option ModemError) (res : JValue) : Outcome :=
  onDial err (.resolved (.json res))

/-- Descriptor of `Container.export` (container.ts): streamed exactly when
the caller sets the `stream` option (`isStream: !!opts.stream`). -/
def Container.exportCall (c : Container) (opts : JValue) : Descriptor :=
  { path := "/containers/" ++ c.id ++ "/export?"
    method := "GET"
    options := some opts
    isStream := (opts.getD "stream").truthy
    statusCodes := [(200, .ok), (404, .label "no such container"),
      (500, .label "server error")] }

/-- Callback of `Container.export`: with `opts.stream` unset it resolves
the delivered result as-is (`if (!opts.stream) { resolve(tarStream) }`);
with `opts.stream` set it subscribes to the stream and resolves the
concatenation of the emitted chunks (`res.join('')`); attaching the data
listener to a non-stream throws. -/
def Container.exportRun (_c : Container) (opts : JValue) (err : Option ModemError)
    (res : JValue) : Outcome :=
  onDial err (
    if !(opts.getD "stream").truthy then .resolved (.json res)
    else
      match res with
      | .stream chunks => .resolved (.json (.str (String.join chunks)))
      | _ => .thrown)

/-- Descriptor of `Container.stats` (container.ts): streamed. -/
def Container.statsCall (c : Container) (opts : JValue) : Descriptor :=
  { path := "/containers/" ++ c.id ++ "/stats?"
    method := "GET"
    options := some opts
    isStream := true
    statusCodes := [(200, .ok), (404, .label "no such container"),
      (500, .label "server error")] }

/-- Callback of `Container.stats`. -/
def Container.statsRun (_c : Container) (err : Option ModemError) (res : JValue) : Outcome :=
  onDial err (.resolved (.json res))

/-- Descriptor of `Container.resize` (container.ts). -/
def Container.resizeCall (c : Container) (opts : JValue) : Descriptor :=
  { path := "/containers/" ++ c.id ++ "/resize?"
    method := "GET"
    options := some opts
    statusCodes := [(200, .ok), (404, .label "no such container"),
      (500, .label "server error")] }

/-- Callback of `Container.resize`. -/
def Container.resizeRun (_c : Container) (err : Option ModemError) (res : JValue) : Outcome :=
  onDial err (.resolved (.json res))

/-- Descriptor of `Container.start` (container.ts). -/
def Container.startCall (c : Container) (opts : JValue) : Descriptor :=
  { path := "/containers/" ++ c.id ++ "/start?"
    method := "POST"
    options := some opts
    statusCodes := [(204, .ok), (304, .ok), (404, .label "no such container"),
      (500, .label "server error")] }

/-- Callback of `Container.start`: `resolve(this)` -- the receiver
itself. -/
def Container.startRun (c : Container) (err : Option ModemError) (_res : JValue) : Outcome :=
  onDial err (.resolved (.container c))

/-- Descriptor of `Container.stop` (container.ts). -/
def Container.stopCall (c : Container) (opts : JValue) : Descriptor :=
  { path := "/containers/" ++ c.id ++ "/stop?"
    method := "POST"
    options := some opts
    statusCodes := [(204, .ok), (304, .ok), (404, .label "no such container"),
      (500, .label "server error")] }

/-- Callback of `Container.stop`: resolves the receiver. -/
def Container.stopRun (c : Container) (err : Option ModemError) (_res : JValue) : Outcome :=
  onDial err (.resolved (.container c))

/-- Descriptor of `Container.restart` (container.ts). -/
def Container.restartCall (c : Container) (opts : JValue) : Descriptor :=
  { path := "/containers/" ++ c.id ++ "/restart?"
    method := "POST"
    options := some opts
    statusCodes := [(204, .ok), (404, .label "no such container"),
      (500, .label "server error")] }

/-- Callback of `Container.restart`: resolves the receiver. -/
def Container.restartRun (c : Container) (err : Option ModemError) (_res : JValue) : Outcome :=
  onDial err (.resolved (.container c))

/-- Descriptor of `Container.kill` (container.ts). -/
def Container.killCall (c : Container) (opts : JValue) : Descriptor :=
  { path := "/containers/" ++ c.id ++ "/kill?"
    method := "POST"
    options := some opts
    statusCodes := [(204, .ok), (404, .label "no such container"),
      (500, .label "server error")] }

/-- Callback of `Container.kill`: resolves the receiver. -/
def Container.killRun (c : Container) (err : Option ModemError) (_res : JValue) : Outcome :=
  onDial err (.resolved (.container c))

/-- Descriptor of `Container.update` (container.ts). -/
def Container.updateCall (c : Container) (opts : JValue) : Descriptor :=
  { path := "/containers/" ++ c.id ++ "/update?"
    method := "POST"
    options := some opts
    statusCodes := [(200, .ok), (400, .label "bad request"),
      (404, .label "no such container"), (500, .label "server error")] }

/-- Callback of `Container.update`: constructs a fresh
`new Container(modem, this.id)` with `Warnings` set to the callback
result, and resolves that fresh handle, not the receiver.  (The source
builds the fresh handle before checking `err`; that is unobservable, the
rejection still carries the error.) -/
def Container.updateRun (c : Container) (err : Option ModemError) (res : JValue) : Outcome :=
  onDial err (.resolved (.container ⟨c.modem, c.id, res, none⟩))

/-- Descriptor of `Container.rename` (container.ts). -/
def Container.renameCall (c : Container) (opts : JValue) : Descriptor :=
  { path := "/containers/" ++ c.id ++ "/rename?"
    method := "POST"
    options := some opts
    statusCodes := [(204, .ok), (404, .label "no such container"),
      (409, .label "name already taken"), (500, .label "server error")] }

/-- Callback of `Container.rename`: resolves the receiver. -/
def Container.renameRun (c : Container) (err : Option ModemError) (_res : JValue) : Outcome :=
  onDial err (.resolved (.container c))

/-- Descriptor of `Container.pause` (container.ts). -/
def Container.pauseCall (c : Container) : Descriptor :=
  { path := "/containers/" ++ c.id ++ "/pause?"
    method := "POST"
    options := some (.obj [])
    statusCodes := [(204, .ok), (404, .label "no such container"),
      (500, .label "server error")] }

/-- Callback of `Container.pause`: resolves the receiver. -/
def Container.pauseRun (c : Container) (err : Option ModemError) (_res : JValue) : Outcome :=
  onDial err (.resolved (.container c))

/-- Descriptor of `Container.unpause` (container.ts). -/
def Container.unpauseCall (c : Container) : Descriptor :=
  { path := "/containers/" ++ c.id ++ "/unpause?"
    method := "POST"
    options := some (.obj [])
    statusCodes := [(204, .ok), (404, .label "no such container"),
      (500, .label "server error")] }

/-- Callback of `Container.unpause`: resolves the receiver. -/
def Container.unpauseRun (c : Container) (err : Option ModemError) (_res : JValue) : Outcome :=
  onDial err (.resolved (.container c))

/-- Descriptor of `Container.attach` (container.ts): streamed duplex. -/
def Container.attachCall (c : Container) (opts : JValue) : Descriptor :=
  { path := "/containers/" ++ c.id ++ "/attach?"
    method := "POST"
    options := some opts
    isStream := true
    openStdin := opts.get? "stdin"
    statusCodes := [(101, .ok), (200, .ok), (400, .label "bad request"),
      (404, .label "no such container"), (500, .label "server error")] }

/-- Callback of `Container.attach`: resolves `[stream, this]`. -/
def Container.attachRun (c : Container) (err : Option ModemError) (res : JValue) : Outcome :=
  onDial err (.resolved (.attach res c))

/-- Descriptor of `Container.wsattach` (container.ts). -/
def Container.wsattachCall (c : Container) (opts : JValue) : Descriptor :=
  { path := "/containers/" ++ c.id ++ "/attach/ws?"
    method := "GET"
    options := some opts
    statusCodes := [(200, .ok), (400, .label "bad request"),
      (404, .label "no such container"), (500, .label "server error")] }

/-- Callback of `Container.wsattach`: resolves `[stream, this]`. -/
def Container.wsattachRun (c : Container) (err : Option ModemError) (res : JValue) : Outcome :=
  onDial err (.resolved (.attach res c))

/-- Descriptor of `Container.wait` (container.ts). -/
def Container.waitCall (c : Container) : Descriptor :=
  { path := "/containers/" ++ c.id ++ "/wait?"
    method := "POST"
    options := some (.obj [])
    statusCodes := [(200, .ok), (404, .label "no such container"),
      (500, .label "server error")] }

/-- Callback of `Container.wait`: resolves the exit code. -/
def Container.waitRun (_c : Container) (err : Option ModemError) (res : JValue) : Outcome :=
  onDial err (.resolved (.json res))

/-- Descriptor of `Container.delete` (container.ts): note the status-code
table has no 409 entry. -/
def Container.deleteCall (c : Container) (opts : JValue) : Descriptor :=
  { path := "/containers/" ++ c.id ++ "?"
    method := "DELETE"
    options := some opts
    statusCodes := [(204, .ok), (400, .label "bad request"),
      (404, .label "no such container"), (500, .label "server error")] }

/-- Callback of `Container.delete`: resolves the raw response. -/
def Container.deleteRun (_c : Container) (err : Option ModemError) (res : JValue) : Outcome :=
  onDial err (.resolved (.json res))

/-- JS `s.replace(pat, '')` for a plain-string pattern: removes the first
occurrence of `pat` anywhere in `s` (not only a leading prefix); `s` is
returned unchanged when `pat` does not occur. -/
def stripFirstOcc : List Char → List Char → List Char
  | [], _ => []
  | c :: cs, pat =>
    if pat.isPrefixOf (c :: cs) then (c :: cs).drop pat.length
    else c :: stripFirstOcc cs pat

def jsReplaceOnce (s pat : String) : String :=
  ⟨stripFirstOcc s.data pat.data⟩

/-- Descriptor of `Container.commit` (container.ts): the receiver's id is
first written into the options (`opts.container = this.id`). -/
def Container.commitCall (c : Container) (opts : JValue) : Descriptor :=
  { path := "/commit?"
    method := "POST"
    options := some (opts.set "container" (.str c.id))
    statusCodes := [(201, .ok), (404, .label "no such container"),
      (500, .label "server error")] }

/-- Callback of `Container.commit`: resolves
`new Image(modem, res.Id.replace('sha256:', ''))`; a missing body or a
non-string `Id` makes the property access or `.replace` call throw. -/
def Container.commitRun (c : Container) (err : Option ModemError) (res : JValue) : Outcome :=
  onDial err (
    match res with
    | .null => .thrown
    | body =>
      match body.getD "Id" with
      | .str s => .resolved (.image ⟨c.modem, jsReplaceOnce s "sha256:", .obj []⟩)
      | _ => .thrown)

/-- `ContainerManager.get(id)` (container.ts): bare
`new Container(modem, id)`. -/
def ContainerManager.get (cm : ContainerManager) (id : String) : Container :=
  ⟨cm.modem, id, .arr [], none⟩

/-- Descriptor of `ContainerManager.list` (container.ts). -/
def ContainerManager.listCall (_cm : ContainerManager) (opts : JValue) : Descriptor :=
  { path := "/containers/json?"
    method := "GET"
    options := some opts
    statusCodes := [(200, .ok), (400, .label "bad request"),
      (500, .label "server error")] }

/-- Callback of `ContainerManager.list`: `containers.map(...)` with no
guard, so a missing or non-array result throws; each element becomes a
handle with that element's `Id` and body. -/
def ContainerManager.listRun (cm : ContainerManager) (err : Option ModemError)
    (res : JValue) : Outcome :=
  onDial err (
    match res with
    | .arr confs =>
      match jsMap (confToContainer cm.modem) confs with
      | some cs => .resolved (.containers cs)
      | none => .thrown
    | _ => .thrown)

/-- Descriptor of `ContainerManager.create` (container.ts). -/
def ContainerManager.createCall (_cm : ContainerManager) (opts : JValue) : Descriptor :=
  { path := "/containers/create?"
    method := "POST"
    options := some opts
    statusCodes := [(200, .ok), (201, .ok), (400, .label "bad request"),
      (404, .label "no such image"), (406, .label "impossible to attach"),
      (500, .label "server error")] }

/-- Callback of `ContainerManager.create`: builds a handle from `conf.Id`
with the body as snapshot. -/
def ContainerManager.createRun (cm : ContainerManager) (err : Option ModemError)
    (res : JValue) : Outcome :=
  onDial err (
    match res with
    | .null => .thrown
    | conf => .resolved (.container ⟨cm.modem, (conf.getD "Id").interp, .arr [], some conf⟩))

/-- Descriptor of `ContainerManager.prune` (container.ts): the only
container path without the trailing query placeholder. -/
def ContainerManager.pruneCall (_cm : ContainerManager) (opts : JValue) : Descriptor :=
  { path := "/containers/prune"
    method := "POST"
    options := some opts
    statusCodes := [(200, .ok), (500, .label "server error")] }

/-- Callback of `ContainerManager.prune`. -/
def ContainerManager.pruneRun (_cm : ContainerManager) (err : Option ModemError)
    (res : JValue) : Outcome :=
  onDial err (.resolved (.json res))

/-- Descriptor of `Image.status` (image.ts). -/
def Image.statusCall (i : Image) (opts : JValue) : Descriptor :=
  { path := "/images/" ++ i.id ++ "/json?"
    method := "GET"
    options := some opts
    statusCodes := [(200, .ok), (404, .label "no such image"),
      (500, .label "server error")] }

/-- Callback of `Image.status`: a fresh handle with the receiver's id and
the body as snapshot. -/
def Image.statusRun (i : Image) (err : Option ModemError) (res : JValue) : Outcome :=
  onDial err (.resolved (.image ⟨i.modem, i.id, res⟩))

/-- Descriptor of `Image.history` (image.ts). -/
def Image.historyCall (i : Image) (opts : JValue) : Descriptor :=
  { path := "/images/" ++ i.id ++ "/history?"
    method := "GET"
    options := some opts
    statusCodes := [(200, .ok), (404, .label "no such image"),
      (500, .label "server error")] }

/-- Callback of `Image.history`. -/
def Image.historyRun (_i : Image) (err : Option ModemError) (res : JValue) : Outcome :=
  onDial err (.resolved (.json res))

/-- Descriptor of `Image.push` (image.ts): streamed with registry
authentication. -/
def Image.pushCall (i : Image) (auth opts : JValue) : Descriptor :=
  { path := "/images/" ++ i.id ++ "/push?"
    method := "POST"
    options := some opts
    isStream := true
    authconfig := some auth
    statusCodes := [(200, .ok), (404, .label "no such image"),
      (500, .label "server error")] }

/-- Callback of `Image.push`: resolves the stream. -/
def Image.pushRun (_i : Image) (err : Option ModemError) (res : JValue) : Outcome :=
  onDial err (.resolved (.json res))

/-- Descriptor of `Image.tag` (image.ts). -/
def Image.tagCall (i : Image) (opts : JValue) : Descriptor :=
  { path := "/images/" ++ i.id ++ "/tag?"
    method := "POST"
    options := some opts
    statusCodes := [(201, .ok), (400, .label "bad parameter"),
      (404, .label "no such image"), (409, .label "conflict"),
      (500, .label "server error")] }

/-- Semantics of `Image.tag`: the only composite operation.  The tag dial
resolves a fresh bare handle, and the chained `.then` immediately issues
that handle's `status` dial; either dial's error rejects the overall
promise, and success resolves the status-constructed handle carrying the
second response body. -/
def Image.tagRun (i : Image) (err1 : Option ModemError) (_res1 : JValue)
    (err2 : Option ModemError) (res2 : JValue) : Outcome :=
  match err1 with
  | some e => .rejected e
  | none =>
    match err2 with
    | some e => .rejected e
    | none => .resolved (.image ⟨i.modem, i.id, res2⟩)

/-- Descriptor of `Image.remove` (image.ts): maps 409 to the conflict
label. -/
def Image.removeCall (i : Image) (opts : JValue) : Descriptor :=
  { path := "/images/" ++ i.id ++ "?"
    method := "DELETE"
    options := some opts
    statusCodes := [(200, .ok), (404, .label "no such image"),
      (409, .label "conflict"), (500, .label "server error")] }

/-- Callback of `Image.remove`: resolves the raw response. -/
def Image.removeRun (_i : Image) (err : Option ModemError) (res : JValue) : Outcome :=
  onDial err (.resolved (.json res))

/-- Descriptor of `Image.get` (image.ts): tarball stream. -/
def Image.getCall (i : Image) (opts : JValue) : Descriptor :=
  { path := "/images/" ++ i.id ++ "/get?"
    method := "GET"
    options := some opts
    isStream := true
    statusCodes := [(200, .ok), (500, .label "server error")] }

/-- Callback of `Image.get`. -/
def Image.getRun (_i : Image) (err : Option ModemError) (res : JValue) : Outcome :=
  onDial err (.resolved (.json res))

/-- `ImageManager.get(id)` (image.ts): bare `new Image(modem, id)`. -/
def ImageManager.get (im : ImageManager) (id : String) : Image :=
  ⟨im.modem, id, .obj []⟩

/-- Descriptor of `ImageManager.search` (image.ts). -/
def ImageManager.searchCall (_im : ImageManager) (opts : JValue) : Descriptor :=
  { path := "/images/search?"
    method := "GET"
    options := some opts
    statusCodes := [(200, .ok), (500, .label "server error")] }

/-- Callback of `ImageManager.search`: resolves the raw list. -/
def ImageManager.searchRun (_im : ImageManager) (err : Option ModemError)
    (res : JValue) : Outcome :=
  onDial err (.resolved (.json res))

/-- Descriptor of `ImageManager.list` (image.ts). -/
def ImageManager.listCall (_im : ImageManager) (opts : JValue) : Descriptor :=
  { path := "/images/json?"
    method := "GET"
    options := some opts
    statusCodes := [(200, .ok), (400, .label "bad request"),
      (500, .label "server error")] }

/-- Callback of `ImageManager.list`: unguarded `images.map(...)`, so a
missing or non-array result throws. -/
def ImageManager.listRun (im : ImageManager) (err : Option ModemError)
    (res : JValue) : Outcome :=
  onDial err (
    match res with
    | .arr confs =>
      match jsMap (confToImage im.modem) confs with
      | some xs => .resolved (.images xs)
      | none => .thrown
    | _ => .thrown)

/-- Descriptor of `ImageManager.build` (image.ts): file upload, streamed,
with registry config. -/
def ImageManager.buildCall (_im : ImageManager) (opts auth : JValue) : Descriptor :=
  { path := "/build?"
    method := "POST"
    options := some opts
    file := true
    isStream := true
    registryconfig := some auth
    statusCodes := [(200, .ok), (500, .label "server error")] }

/-- Callback of `ImageManager.build`: resolves the stream. -/
def ImageManager.buildRun (_im : ImageManager) (err : Option ModemError)
    (res : JValue) : Outcome :=
  onDial err (.resolved (.json res))

/-- Descriptor of `ImageManager.create` (image.ts): streamed pull with
authentication. -/
def ImageManager.createCall (_im : ImageManager) (auth opts : JValue) : Descriptor :=
  { path := "/images/create?"
    method := "POST"
    options := some opts
    isStream := true
    authconfig := some auth
    statusCodes := [(200, .ok), (500, .label "server error")] }

/-- Callback of `ImageManager.create`: resolves the stream. -/
def ImageManager.createRun (_im : ImageManager) (err : Option ModemError)
    (res : JValue) : Outcome :=
  onDial err (.resolved (.json res))

/-- Descriptor of `ImageManager.getAll` (image.ts). -/
def ImageManager.getAllCall (_im : ImageManager) (opts : JValue) : Descriptor :=
  { path := "/images/get?"
    method := "GET"
    options := some opts
    isStream := true
    statusCodes := [(200, .ok), (500, .label "server error")] }

/-- Callback of `ImageManager.getAll`. -/
def ImageManager.getAllRun (_im : ImageManager) (err : Option ModemError)
    (res : JValue) : Outcome :=
  onDial err (.resolved (.json res))

/-- Descriptor of `ImageManager.load` (image.ts): tarball upload. -/
def ImageManager.loadCall (_im : ImageManager) (opts : JValue) : Descriptor :=
  { path := "/images/load?"
    method := "POST"
    options := some opts
    file := true
    isStream := true
    statusCodes := [(200, .ok), (500, .label "server error")] }

/-- Callback of `ImageManager.load`. -/
def ImageManager.loadRun (_im : ImageManager) (err : Option ModemError)
    (res : JValue) : Outcome :=
  onDial err (.resolved (.json res))

/-- Descriptor of `ImageManager.prune` (image.ts): no trailing query
placeholder. -/
def ImageManager.pruneCall (_im : ImageManager) (opts : JValue) : Descriptor :=
  { path := "/images/prune"
    method := "POST"
    options := some opts
    statusCodes := [(200, .ok), (500, .label "server error")] }

/-- Callback of `ImageManager.prune`. -/
def ImageManager.pruneRun (_im : ImageManager) (err : Option ModemError)
    (res : JValue) : Outcome :=
  onDial err (.resolved (.json res))

/-- JS `typeof v === 'string'`. -/
def JValue.isStr : JValue → Bool
  | .str _ => true
  | _ => false

/-- `Plugin.__processArguments(opts, id)` (plugin.ts), literally:
a string `opts` with a falsy `id` becomes the id (while remaining the
options value); a still-falsy id falls back to the receiver's id when
that is truthy; a falsy `opts` is replaced by the empty object. -/
def Plugin.processArguments (p : Plugin) (opts id : JValue) : JValue × JValue :=
  let id := if opts.isStr && !id.truthy then opts else id
  let id := if !id.truthy && p.id.truthy then p.id else id
  let opts := if !opts.truthy then .obj [] else opts
  (opts, id)

/-- Descriptor of `Plugin.list` (plugin.ts). -/
def Plugin.listCall (_p : Plugin) (opts : JValue) : Descriptor :=
  { path := "/plugins?"
    method := "GET"
    options := some opts
    statusCodes := [(200, .ok), (500, .label "server error")] }

/-- Callback of `Plugin.list`: guarded by `!plugins?.length`, so a missing
or empty (or length-less) result resolves the empty list; a non-empty
array maps each element through construction plus `Object.assign`; a
non-empty string passes the guard but has no `.map` and throws. -/
def Plugin.listRun (p : Plugin) (err : Option ModemError) (res : JValue) : Outcome :=
  onDial err (
    if jsLenFalsy res then .resolved (.plugins [])
    else
      match res with
      | .arr confs =>
        match jsMap (confToPlugin p.modem) confs with
        | some ps => .resolved (.plugins ps)
        | none => .thrown
      | _ => .thrown)

/-- Descriptor of `Plugin.upgrade` (plugin.ts): the id interpolated into
the path is the processed one (no explicit id argument exists for
`upgrade`). -/
def Plugin.upgradeCall (p : Plugin) (opts : JValue) : Descriptor :=
  { path := "/plugins/" ++ (p.processArguments opts .null).2.interp ++ "/upgrade?"
    method := "POST"
    options := some (p.processArguments opts .null).1
    statusCodes := [(204, .ok), (404, .label "plugin not installed"),
      (500, .label "server error")] }

/-- Callback of `Plugin.upgrade`: resolves
`new Plugin(modem, opts.name)` built from the processed options (which are
never null after processing, so the property read cannot throw). -/
def Plugin.upgradeRun (p : Plugin) (opts : JValue) (err : Option ModemError)
    (_res : JValue) : Outcome :=
  onDial err
    (.resolved (.plugin { modem := p.modem, id := (p.processArguments opts .null).1.getD "name" }))

/-- Descriptor of `Plugin.create` (plugin.ts): no argument processing. -/
def Plugin.createCall (_p : Plugin) (opts : JValue) : Descriptor :=
  { path := "/plugins/create?"
    method := "POST"
    options := some opts
    statusCodes := [(204, .ok), (500, .label "server error")] }

/-- Callback of `Plugin.create`: reads `opts.name` from the raw options,
which throws when `opts` is missing. -/
def Plugin.createRun (p : Plugin) (opts : JValue) (err : Option ModemError)
    (_res : JValue) : Outcome :=
  onDial err (
    match opts with
    | .null => .thrown
    | o => .resolved (.plugin { modem := p.modem, id := o.getD "name" }))

/-- Descriptor of `Plugin.install` (plugin.ts). -/
def Plugin.installCall (_p : Plugin) (opts : JValue) : Descriptor :=
  { path := "/plugins/pull?"
    method := "POST"
    options := some opts
    statusCodes := [(200, .ok), (500, .label "server error")] }

/-- Callback of `Plugin.install`: like `create`, reads the raw
`opts.name`. -/
def Plugin.installRun (p : Plugin) (opts : JValue) (err : Option ModemError)
    (_res : JValue) : Outcome :=
  onDial err (
    match opts with
    | .null => .thrown
    | o => .resolved (.plugin { modem := p.modem, id := o.getD "name" }))

/-- Descriptor of `Plugin.status` (plugin.ts). -/
def Plugin.statusCall (p : Plugin) (opts id : JValue) : Descriptor :=
  { path := "/plugins/" ++ (p.processArguments opts id).2.interp ++ "?"
    method := "GET"
    options := some (p.processArguments opts id).1
    statusCodes := [(200, .ok), (404, .label "no such plugin"),
      (500, .label "server error")] }

/-- Callback of `Plugin.status`: resolves
`Object.assign(new Plugin(modem, id), conf)` where `id` is the processed
identifier (the receiver's own id only as fallback). -/
def Plugin.statusRun (p : Plugin) (opts id : JValue) (err : Option ModemError)
    (res : JValue) : Outcome :=
  onDial err
    (.resolved (.plugin (Plugin.assignConf { modem := p.modem, id := (p.processArguments opts id).2 } res)))

/-- Descriptor of `Plugin.remove` (plugin.ts): no 409 entry. -/
def Plugin.removeCall (p : Plugin) (opts id : JValue) : Descriptor :=
  { path := "/plugins/" ++ (p.processArguments opts id).2.interp ++ "?"
    method := "DELETE"
    options := some (p.processArguments opts id).1
    statusCodes := [(200, .ok), (404, .label "no such plugin"),
      (500, .label "server error")] }

/-- Callback of `Plugin.remove`: resolves the raw response. -/
def Plugin.removeRun (_p : Plugin) (err : Option ModemError) (res : JValue) : Outcome :=
  onDial err (.resolved (.json res))

/-- Descriptor of `Plugin.push` (plugin.ts). -/
def Plugin.pushCall (p : Plugin) (opts id : JValue) : Descriptor :=
  { path := "/plugins/" ++ (p.processArguments opts id).2.interp ++ "/push?"
    method := "POST"
    options := some (p.processArguments opts id).1
    statusCodes := [(200, .ok), (404, .label "plugin not found"),
      (500, .label "server error")] }

/-- Callback of `Plugin.push`: resolves a fresh handle with the processed
id. -/
def Plugin.pushRun (p : Plugin) (opts id : JValue) (err : Option ModemError)
    (_res : JValue) : Outcome :=
  onDial err (.resolved (.plugin { modem := p.modem, id := (p.processArguments opts id).2 }))

/-- Descriptor of `Plugin.set` (plugin.ts). -/
def Plugin.setCall (p : Plugin) (opts id : JValue) : Descriptor :=
  { path := "/plugins/" ++ (p.processArguments opts id).2.interp ++ "/set?"
    method := "POST"
    options := some (p.processArguments opts id).1
    statusCodes := [(204, .ok), (404, .label "plugin not found"),
      (500, .label "server error")] }

/-- Callback of `Plugin.set`. -/
def Plugin.setRun (p : Plugin) (opts id : JValue) (err : Option ModemError)
    (_res : JValue) : Outcome :=
  onDial err (.resolved (.plugin { modem := p.modem, id := (p.processArguments opts id).2 }))

/-- Descriptor of `Plugin.enable` (plugin.ts). -/
def Plugin.enableCall (p : Plugin) (opts id : JValue) : Descriptor :=
  { path := "/plugins/" ++ (p.processArguments opts id).2.interp ++ "/enable?"
    method := "POST"
    options := some (p.processArguments opts id).1
    statusCodes := [(200, .ok), (500, .label "server error")] }

/-- Callback of `Plugin.enable`. -/
def Plugin.enableRun (p : Plugin) (opts id : JValue) (err : Option ModemError)
    (_res : JValue) : Outcome :=
  onDial err (.resolved (.plugin { modem := p.modem, id := (p.processArguments opts id).2 }))

/-- Descriptor of `Plugin.disable` (plugin.ts). -/
def Plugin.disableCall (p : Plugin) (opts id : JValue) : Descriptor :=
  { path := "/plugins/" ++ (p.processArguments opts id).2.interp ++ "/disable?"
    method := "POST"
    options := some (p.processArguments opts id).1
    statusCodes := [(200, .ok), (500, .label "server error")] }

/-- Callback of `Plugin.disable`. -/
def Plugin.disableRun (p : Plugin) (opts id : JValue) (err : Option ModemError)
    (_res : JValue) : Outcome :=
  onDial err (.resolved (.plugin { modem := p.modem, id := (p.processArguments opts id).2 }))

/-- Descriptor of `Network.status` (network.ts). -/
def Network.statusCall (n : Network) (opts : JValue) : Descriptor :=
  { path := "/networks/" ++ n.id ++ "?"
    method := "GET"
    options := some opts
    statusCodes := [(200, .ok), (404, .label "no such network"),
      (500, .label "server error")] }

/-- Callback of `Network.status`: fresh handle, same id, body as
snapshot. -/
def Network.statusRun (n : Network) (err : Option ModemError) (res : JValue) : Outcome :=
  onDial err (.resolved (.network ⟨n.modem, n.id, res⟩))

/-- Descriptor of `Network.remove` (network.ts): no 409 entry. -/
def Network.removeCall (n : Network) (opts : JValue) : Descriptor :=
  { path := "/networks/" ++ n.id ++ "?"
    method := "DELETE"
    options := some opts
    statusCodes := [(204, .ok), (404, .label "no such network"),
      (500, .label "server error")] }

/-- Callback of `Network.remove`: resolves the raw response. -/
def Network.removeRun (_n : Network) (err : Option ModemError) (res : JValue) : Outcome :=
  onDial err (.resolved (.json res))

/-- Descriptor of `Network.connect` (network.ts). -/
def Network.connectCall (n : Network) (opts : JValue) : Descriptor :=
  { path := "/networks/" ++ n.id ++ "/connect?"
    method := "POST"
    options := some opts
    statusCodes := [(200, .ok),
      (403, .label "operation not supported for swarm scoped network"),
      (404, .label "network or container not found"),
      (500, .label "server error")] }

/-- Callback of `Network.connect`. -/
def Network.connectRun (n : Network) (err : Option ModemError) (res : JValue) : Outcome :=
  onDial err (.resolved (.network ⟨n.modem, n.id, res⟩))

/-- Descriptor of `Network.disconnect` (network.ts). -/
def Network.disconnectCall (n : Network) (opts : JValue) : Descriptor :=
  { path := "/networks/" ++ n.id ++ "/disconnect?"
    method := "POST"
    options := some opts
    statusCodes := [(200, .ok),
      (403, .label "operation not supported for swarm scoped network"),
      (404, .label "network or container not found"),
      (500, .label "server error")] }

/-- Callback of `Network.disconnect`. -/
def Network.disconnectRun (n : Network) (err : Option ModemError) (res : JValue) : Outcome :=
  onDial err (.resolved (.network ⟨n.modem, n.id, res⟩))

/-- `NetworkManager.get(id)` (network.ts). -/
def NetworkManager.get (nm : NetworkManager) (id : String) : Network :=
  ⟨nm.modem, id, .obj []⟩

/-- Descriptor of `NetworkManager.list` (network.ts). -/
def NetworkManager.listCall (_nm : NetworkManager) (opts : JValue) : Descriptor :=
  { path := "/networks?"
    method := "GET"
    options := some opts
    statusCodes := [(200, .ok), (500, .label "server error")] }

/-- Callback of `NetworkManager.list`: guarded by `!networks?.length`. -/
def NetworkManager.listRun (nm : NetworkManager) (err : Option ModemError)
    (res : JValue) : Outcome :=
  onDial err (
    if jsLenFalsy res then .resolved (.networks [])
    else
      match res with
      | .arr confs =>
        match jsMap (confToNetwork nm.modem) confs with
        | some xs => .resolved (.networks xs)
        | none => .thrown
      | _ => .thrown)

/-- Descriptor of `NetworkManager.create` (network.ts). -/
def NetworkManager.createCall (_nm : NetworkManager) (opts : JValue) : Descriptor :=
  { path := "/networks/create?"
    method := "POST"
    options := some opts
    statusCodes := [(201, .ok), (404, .label "plugin not found"),
      (500, .label "server error")] }

/-- Callback of `NetworkManager.create`. -/
def NetworkManager.createRun (nm : NetworkManager) (err : Option ModemError)
    (res : JValue) : Outcome :=
  onDial err (
    match res with
    | .null => .thrown
    | conf => .resolved (.network ⟨nm.modem, (conf.getD "Id").interp, conf⟩))

/-- Descriptor of `NetworkManager.prune` (network.ts): no trailing query
placeholder. -/
def NetworkManager.pruneCall (_nm : NetworkManager) (opts : JValue) : Descriptor :=
  { path := "/networks/prune"
    method := "POST"
    options := some opts
    statusCodes := [(200, .ok), (500, .label "server error")] }

/-- Callback of `NetworkManager.prune`. -/
def NetworkManager.pruneRun (_nm : NetworkManager) (err : Option ModemError)
    (res : JValue) : Outcome :=
  onDial err (.resolved (.json res))

/-- Descriptor of `Volume.status` (volume.ts). -/
def Volume.statusCall (v : Volume) (opts : JValue) : Descriptor :=
  { path := "/volumes/" ++ v.id ++ "?"
    method := "GET"
    options := some opts
    statusCodes := [(200, .ok), (404, .label "no such volume"),
      (500, .label "server error")] }

/-- Callback of `Volume.status`. -/
def Volume.statusRun (v : Volume) (err : Option ModemError) (res : JValue) : Outcome :=
  onDial err (.resolved (.volume ⟨v.modem, v.id, res⟩))

/-- Descriptor of `Volume.remove` (volume.ts): maps 409 to the conflict
label. -/
def Volume.removeCall (v : Volume) (opts : JValue) : Descriptor :=
  { path := "/volumes/" ++ v.id ++ "?"
    method := "DELETE"
    options := some opts
    statusCodes := [(204, .ok), (404, .label "no such volume"),
      (409, .label "conflict"), (500, .label "server error")] }

/-- Callback of `Volume.remove`: resolves the raw response. -/
def Volume.removeRun (_v : Volume) (err : Option ModemError) (res : JValue) : Outcome :=
  onDial err (.resolved (.json res))

/-- `VolumeManager.get(id)` (volume.ts). -/
def VolumeManager.get (vm : VolumeManager) (id : String) : Volume :=
  ⟨vm.modem, id, .obj []⟩

/-- Descriptor of `VolumeManager.list` (volume.ts): no trailing query
placeholder on the path. -/
def VolumeManager.listCall (_vm : VolumeManager) (opts : JValue) : Descriptor :=
  { path := "/volumes"
    method := "GET"
    options := some opts
    statusCodes := [(200, .ok), (500, .label "server error")] }

/-- Callback of `VolumeManager.list`: reads `result.Volumes` (throwing on
a missing result), guards with `!result.Volumes?.length`, then maps each
element to a handle keyed by its `Name`. -/
def VolumeManager.listRun (vm : VolumeManager) (err : Option ModemError)
    (res : JValue) : Outcome :=
  onDial err (
    match res with
    | .null => .thrown
    | body =>
      if jsLenFalsy (body.getD "Volumes") then .resolved (.volumes [])
      else
        match body.getD "Volumes" with
        | .arr confs =>
          match jsMap (confToVolume vm.modem) confs with
          | some xs => .resolved (.volumes xs)
          | none => .thrown
        | _ => .thrown)

/-- Descriptor of `VolumeManager.create` (volume.ts). -/
def VolumeManager.createCall (_vm : VolumeManager) (opts : JValue) : Descriptor :=
  { path := "/volumes/create?"
    method := "POST"
    options := some opts
    statusCodes := [(201, .ok), (500, .label "server error")] }

/-- Callback of `VolumeManager.create`: builds a handle from `conf.Name`;
unlike the other create callbacks the body is not stored as snapshot. -/
def VolumeManager.createRun (vm : VolumeManager) (err : Option ModemError)
    (res : JValue) : Outcome :=
  onDial err (
    match res with
    | .null => .thrown
    | conf => .resolved (.volume ⟨vm.modem, (conf.getD "Name").interp, .obj []⟩))

/-- Descriptor of `VolumeManager.prune` (volume.ts): no trailing query
placeholder. -/
def VolumeManager.pruneCall (_vm : VolumeManager) (opts : JValue) : Descriptor :=
  { path := "/volumes/prune"
    method := "POST"
    options := some opts
    statusCodes := [(200, .ok), (500, .label "server error")] }

/-- Callback of `VolumeManager.prune`. -/
def VolumeManager.pruneRun (_vm : VolumeManager) (err : Option ModemError)
    (res : JValue) : Outcome :=
  onDial err (.resolved (.json res))

/-- Descriptor of `Secret.status` (secret.ts). -/
def Secret.statusCall (s : Secret) (opts : JValue) : Descriptor :=
  { path := "/secrets/" ++ s.id ++ "?"
    method := "GET"
    options := some opts
    statusCodes := [(200, .ok), (404, .label "no such secret"),
      (406, .label "406 node is not part of a swarm"),
      (500, .label "server error")] }

/-- Callback of `Secret.status`. -/
def Secret.statusRun (s : Secret) (err : Option ModemError) (res : JValue) : Outcome :=
  onDial err (.resolved (.secret ⟨s.modem, s.id, res⟩))

/-- Descriptor of `Secret.remove` (secret.ts): no 409 entry. -/
def Secret.removeCall (s : Secret) (opts : JValue) : Descriptor :=
  { path := "/secrets/" ++ s.id ++ "?"
    method := "DELETE"
    options := some opts
    statusCodes := [(204, .ok), (404, .label "no such secret"),
      (500, .label "server error")] }

/-- Callback of `Secret.remove`: resolves the raw response. -/
def Secret.removeRun (_s : Secret) (err : Option ModemError) (res : JValue) : Outcome :=
  onDial err (.resolved (.json res))

/-- `SecretManager.get(id)` (secret.ts). -/
def SecretManager.get (sm : SecretManager) (id : String) : Secret :=
  ⟨sm.modem, id, .obj []⟩

/-- Descriptor of `SecretManager.list` (secret.ts): no trailing query
placeholder on the path. -/
def SecretManager.listCall (_sm : SecretManager) (opts : JValue) : Descriptor :=
  { path := "/secrets"
    method := "GET"
    options := some opts
    statusCodes := [(200, .ok), (500, .label "server error")] }

/-- Callback of `SecretManager.list`: guard `!result.length` without
optional chaining, so a missing result throws; elements are keyed by
`Name`. -/
def SecretManager.listRun (sm : SecretManager) (err : Option ModemError)
    (res : JValue) : Outcome :=
  onDial err (
    match res with
    | .null => .thrown
    | body =>
      if jsLenFalsy body then .resolved (.secrets [])
      else
        match body with
        | .arr confs =>
          match jsMap (confToSecret sm.modem) confs with
          | some xs => .resolved (.secrets xs)
          | none => .thrown
        | _ => .thrown)

/-- Descriptor of `SecretManager.create` (secret.ts). -/
def SecretManager.createCall (_sm : SecretManager) (opts : JValue) : Descriptor :=
  { path := "/secrets/create?"
    method := "POST"
    options := some opts
    statusCodes := [(201, .ok),
      (406, .label "server error or node is not part of a swarm"),
      (409, .label "409 name conflicts with an existing  Record<string, unknown>"),
      (500, .label "server error")] }

/-- Callback of `SecretManager.create`: keyed by the response `ID`. -/
def SecretManager.createRun (sm : SecretManager) (err : Option ModemError)
    (res : JValue) : Outcome :=
  onDial err (
    match res with
    | .null => .thrown
    | conf => .resolved (.secret ⟨sm.modem, (conf.getD "ID").interp, conf⟩))

/-- Descriptor of `Service.update` (service.ts). -/
def Service.updateCall (s : Service) (opts auth : JValue) : Descriptor :=
  { path := "/services/" ++ s.id ++ "/update?"
    method := "POST"
    options := some opts
    authconfig := some auth
    statusCodes := [(200, .ok), (404, .label "no such service"),
      (500, .label "server error")] }

/-- Callback of `Service.update`: a fresh handle with the receiver's id
and the body as snapshot (not the receiver). -/
def Service.updateRun (s : Service) (err : Option ModemError) (res : JValue) : Outcome :=
  onDial err (.resolved (.service ⟨s.modem, s.id, res⟩))

/-- Descriptor of `Service.status` (service.ts). -/
def Service.statusCall (s : Service) (opts : JValue) : Descriptor :=
  { path := "/services/" ++ s.id ++ "?"
    method := "GET"
    options := some opts
    statusCodes := [(200, .ok), (404, .label "no such service"),
      (500, .label "server error")] }

/-- Callback of `Service.status`. -/
def Service.statusRun (s : Service) (err : Option ModemError) (res : JValue) : Outcome :=
  onDial err (.resolved (.service ⟨s.modem, s.id, res⟩))

/-- Descriptor of `Service.remove` (service.ts): no 409 entry. -/
def Service.removeCall (s : Service) (opts : JValue) : Descriptor :=
  { path := "/services/" ++ s.id ++ "?"
    method := "DELETE"
    options := some opts
    statusCodes := [(200, .ok), (404, .label "no such service"),
      (500, .label "server error")] }

/-- Callback of `Service.remove`: resolves the raw response. -/
def Service.removeRun (_s : Service) (err : Option ModemError) (res : JValue) : Outcome :=
  onDial err (.resolved (.json res))

/-- Descriptor of `Service.logs` (service.ts): streamed. -/
def Service.logsCall (s : Service) (opts : JValue) : Descriptor :=
  { path := "/services/" ++ s.id ++ "/logs?"
    method := "GET"
    options := some opts
    isStream := true
    statusCodes := [(101, .ok), (200, .ok), (404, .label "no such service"),
      (500, .label "server error"),
      (501, .label "use --experimental to see this"),
      (503, .label "node is not part of a swarm")] }

/-- Callback of `Service.logs`. -/
def Service.logsRun (_s : Service) (err : Option ModemError) (res : JValue) : Outcome :=
  onDial err (.resolved (.json res))

/-- `ServiceManager.get(id)` (service.ts). -/
def ServiceManager.get (sm : ServiceManager) (id : String) : Service :=
  ⟨sm.modem, id, .obj []⟩

/-- Descriptor of `ServiceManager.create` (service.ts). -/
def ServiceManager.createCall (_sm : ServiceManager) (opts auth : JValue) : Descriptor :=
  { path := "/services/create?"
    method := "POST"
    options := some opts
    authconfig := some auth
    statusCodes := [(201, .ok), (406, .label "node is not part of a swarm"),
      (409, .label "name conflicts")] }

/-- Callback of `ServiceManager.create`: keyed by the response `ID`. -/
def ServiceManager.createRun (sm : ServiceManager) (err : Option ModemError)
    (res : JValue) : Outcome :=
  onDial err (
    match res with
    | .null => .thrown
    | conf => .resolved (.service ⟨sm.modem, (conf.getD "ID").interp, conf⟩))

/-- Descriptor of `ServiceManager.list` (service.ts). -/
def ServiceManager.listCall (_sm : ServiceManager) (opts : JValue) : Descriptor :=
  { path := "/services?"
    method := "GET"
    options := some opts
    statusCodes := [(200, .ok), (500, .label "server error")] }

/-- Callback of `ServiceManager.list`: unguarded `result.map(...)`. -/
def ServiceManager.listRun (sm : ServiceManager) (err : Option ModemError)
    (res : JValue) : Outcome :=
  onDial err (
    match res with
    | .arr confs =>
      match jsMap (confToService sm.modem) confs with
      | some xs => .resolved (.services xs)
      | none => .thrown
    | _ => .thrown)

/-- Descriptor of `Swarm.init` (swarm.ts). -/
def Swarm.initCall (_s : Swarm) (opts : JValue) : Descriptor :=
  { path := "/swarm/init?"
    method := "POST"
    options := some opts
    statusCodes := [(200, .ok), (400, .label "bad parameter"),
      (406, .label "node is already part of a swarm")] }

/-- Callback of `Swarm.init`: resolves `new Node(modem, nodeId)` where
`nodeId` is the raw response. -/
def Swarm.initRun (s : Swarm) (err : Option ModemError) (res : JValue) : Outcome :=
  onDial err (.resolved (.node ⟨s.modem, res.interp, .obj []⟩))

/-- Descriptor of `Swarm.status` (swarm.ts). -/
def Swarm.statusCall (_s : Swarm) (opts : JValue) : Descriptor :=
  { path := "/swarm?"
    method := "GET"
    options := some opts
    statusCodes := [(200, .ok), (404, .label "no such swarm"),
      (500, .label "server error")] }

/-- Callback of `Swarm.status`: a fresh singleton handle with the body as
snapshot. -/
def Swarm.statusRun (s : Swarm) (err : Option ModemError) (res : JValue) : Outcome :=
  onDial err (.resolved (.swarm ⟨s.modem, res⟩))

/-- Descriptor of `Swarm.join` (swarm.ts). -/
def Swarm.joinCall (_s : Swarm) (opts : JValue) : Descriptor :=
  { path := "/swarm/join?"
    method := "POST"
    options := some opts
    statusCodes := [(200, .ok), (400, .label "bad parameter"),
      (406, .label "node is already part of a swarm")] }

/-- Callback of `Swarm.join`. -/
def Swarm.joinRun (_s : Swarm) (err : Option ModemError) (res : JValue) : Outcome :=
  onDial err (.resolved (.json res))

/-- Descriptor of `Swarm.leave` (swarm.ts). -/
def Swarm.leaveCall (_s : Swarm) (opts : JValue) : Descriptor :=
  { path := "/swarm/leave?"
    method := "POST"
    options := some opts
    statusCodes := [(200, .ok), (406, .label "node is not part of a swarm")] }

/-- Callback of `Swarm.leave`. -/
def Swarm.leaveRun (_s : Swarm) (err : Option ModemError) (res : JValue) : Outcome :=
  onDial err (.resolved (.json res))

/-- Descriptor of `Swarm.update` (swarm.ts). -/
def Swarm.updateCall (_s : Swarm) (opts : JValue) : Descriptor :=
  { path := "/swarm/update?"
    method := "POST"
    options := some opts
    statusCodes := [(200, .ok), (400, .label "bad parameter"),
      (406, .label "node is already part of a swarm")] }

/-- Callback of `Swarm.update`. -/
def Swarm.updateRun (_s : Swarm) (err : Option ModemError) (res : JValue) : Outcome :=
  onDial err (.resolved (.json res))

/-- Descriptor of `Task.status` (task.ts). -/
def Task.statusCall (t : Task) (opts : JValue) : Descriptor :=
  { path := "/tasks/" ++ t.id ++ "?"
    method := "GET"
    options := some opts
    statusCodes := [(200, .ok), (404, .label "no such task"),
      (500, .label "server error")] }

/-- Callback of `Task.status`. -/
def Task.statusRun (t : Task) (err : Option ModemError) (res : JValue) : Outcome :=
  onDial err (.resolved (.task ⟨t.modem, t.id, res⟩))

/-- `TaskManager.get(id)` (task.ts). -/
def TaskManager.get (tm : TaskManager) (id : String) : Task :=
  ⟨tm.modem, id, .obj []⟩

/-- Descriptor of `TaskManager.list` (task.ts). -/
def TaskManager.listCall (_tm : TaskManager) (opts : JValue) : Descriptor :=
  { path := "/tasks?"
    method := "GET"
    options := some opts
    statusCodes := [(200, .ok), (500, .label "server error")] }

/-- Callback of `TaskManager.list`: guarded by `!result?.length`. -/
def TaskManager.listRun (tm : TaskManager) (err : Option ModemError)
    (res : JValue) : Outcome :=
  onDial err (
    if jsLenFalsy res then .resolved (.tasks [])
    else
      match res with
      | .arr confs =>
        match jsMap (confToTask tm.modem) confs with
        | some xs => .resolved (.tasks xs)
        | none => .thrown
      | _ => .thrown)

/-- Descriptor of `Node.update` (node.ts). -/
def Node.updateCall (n : Node) (opts : JValue) : Descriptor :=
  { path := "/nodes/" ++ n.id ++ "/update?"
    method := "POST"
    options := some opts
    statusCodes := [(200, .ok), (404, .label "no such node"),
      (500, .label "server error")] }

/-- Callback of `Node.update`: a fresh handle with the receiver's id and
the body as snapshot (not the receiver). -/
def Node.updateRun (n : Node) (err : Option ModemError) (res : JValue) : Outcome :=
  onDial err (.resolved (.node ⟨n.modem, n.id, res⟩))

/-- Descriptor of `Node.status` (node.ts). -/
def Node.statusCall (n : Node) (opts : JValue) : Descriptor :=
  { path := "/nodes/" ++ n.id ++ "?"
    method := "GET"
    options := some opts
    statusCodes := [(200, .ok), (404, .label "no such node"),
      (500, .label "server error")] }

/-- Callback of `Node.status`. -/
def Node.statusRun (n : Node) (err : Option ModemError) (res : JValue) : Outcome :=
  onDial err (.resolved (.node ⟨n.modem, n.id, res⟩))

/-- Descriptor of `Node.remove` (node.ts): no 409 entry. -/
def Node.removeCall (n : Node) (opts : JValue) : Descriptor :=
  { path := "/nodes/" ++ n.id ++ "?"
    method := "DELETE"
    options := some opts
    statusCodes := [(204, .ok), (404, .label "no such node"),
      (500, .label "server error")] }

/-- Callback of `Node.remove`: resolves the raw response. -/
def Node.removeRun (_n : Node) (err : Option ModemError) (res : JValue) : Outcome :=
  onDial err (.resolved (.json res))

/-- `NodeManager.get(id)` (node.ts). -/
def NodeManager.get (nm : NodeManager) (id : String) : Node :=
  ⟨nm.modem, id, .obj []⟩

/-- Descriptor of `NodeManager.list` (node.ts). -/
def NodeManager.listCall (_nm : NodeManager) (opts : JValue) : Descriptor :=
  { path := "/nodes?"
    method := "GET"
    options := some opts
    statusCodes := [(200, .ok), (500, .label "server error")] }

/-- Callback of `NodeManager.list`: guarded by `!result?.length`. -/
def NodeManager.listRun (nm : NodeManager) (err : Option ModemError)
    (res : JValue) : Outcome :=
  onDial err (
    if jsLenFalsy res then .resolved (.nodes [])
    else
      match res with
      | .arr confs =>
        match jsMap (confToNode nm.modem) confs with
        | some xs => .resolved (.nodes xs)
        | none => .thrown
      | _ => .thrown)

/-- The last character of a string, used to state the trailing-placeholder
invariant of descriptor paths. -/
def lastCharOf (s : String) : Option Char :=
  s.data.getLast?

theorem lastChar_append (s t : String) (c : Char) (h : lastCharOf t = some c) :
    lastCharOf (s ++ t) = some c := by
  have hne : t.data ≠ [] := by
    intro hn
    unfold lastCharOf at h
    rw [hn] at h
    exact Option.noConfusion h
  unfold lastCharOf at h ⊢
  rw [String.data_append, List.getLast?_append_of_ne_nil _ hne]
  exact h

theorem jsMap_eq_map {α : Type} (f : JValue → Option α) (g : JValue → α) :
    ∀ l : List JValue, (∀ a ∈ l, f a = some (g a)) → jsMap f l = some (l.map g)
  | [], _ => rfl
  | x :: xs, h => by
    have hx := h x (by simp)
    have ih := jsMap_eq_map f g xs fun a ha => h a (by simp [ha])
    simp [jsMap, hx, ih]

/-- Whether `pat` occurs as a contiguous run inside `s`; `replace` leaves
the string unchanged exactly when it does not. -/
def containsSeq : List Char → List Char → Bool
  | [], pat => pat.isEmpty
  | c :: cs, pat => pat.isPrefixOf (c :: cs) || containsSeq cs pat

theorem stripFirstOcc_of_not_contains (pat : List Char) :
    ∀ s : List Char, containsSeq s pat = false → stripFirstOcc s pat = s
  | [], _ => rfl
  | c :: cs, h => by
    rw [containsSeq, Bool.or_eq_false_iff] at h
    rw [stripFirstOcc, if_neg (by simp [h.1]),
      stripFirstOcc_of_not_contains pat cs h.2]

theorem stripFirstOcc_self_append (c : Char) (cs t : List Char) :
    stripFirstOcc ((c :: cs) ++ t) (c :: cs) = t := by
  have hpre : (c :: cs).isPrefixOf (c :: (cs ++ t)) = true := by
    rw [List.isPrefixOf_iff_prefix]
    exact ⟨t, by simp⟩
  rw [List.cons_append, stripFirstOcc, if_pos hpre]
  have h2 : c :: (cs ++ t) = (c :: cs) ++ t := by simp
  rw [h2, List.drop_left]

theorem jsReplaceOnce_of_not_contains (s pat : String)
    (h : containsSeq s.data pat.data = false) : jsReplaceOnce s pat = s := by
  unfold jsReplaceOnce
  rw [stripFirstOcc_of_not_contains pat.data s.data h]

theorem jsReplaceOnce_sha_prefix (t : String) :
    jsReplaceOnce ("sha256:" ++ t) "sha256:" = t := by
  unfold jsReplaceOnce
  rw [String.data_append]
  have hdata : ("sha256:").data = 's' :: "ha256:".data := rfl
  rw [hdata, stripFirstOcc_self_append]

theorem confToContainer_of_not_null (m : Modem) (a : JValue) (h : a.isNull = false) :
    confToContainer m a = some ⟨m, (a.getD "Id").interp, .arr [], some a⟩ := by
  cases a
  case null => exact absurd h (by simp [JValue.isNull])
  all_goals rfl

theorem confToImage_of_not_null (m : Modem) (a : JValue) (h : a.isNull = false) :
    confToImage m a = some ⟨m, (a.getD "Id").interp, a⟩ := by
  cases a
  case null => exact absurd h (by simp [JValue.isNull])
  all_goals rfl

theorem confToVolume_of_not_null (m : Modem) (a : JValue) (h : a.isNull = false) :
    confToVolume m a = some ⟨m, (a.getD "Name").interp, a⟩ := by
  cases a
  case null => exact absurd h (by simp [JValue.isNull])
  all_goals rfl

theorem confToNetwork_of_not_null (m : Modem) (a : JValue) (h : a.isNull = false) :
    confToNetwork m a = some ⟨m, (a.getD "Id").interp, a⟩ := by
  cases a
  case null => exact absurd h (by simp [JValue.isNull])
  all_goals rfl

theorem confToSecret_of_not_null (m : Modem) (a : JValue) (h : a.isNull = false) :
    confToSecret m a = some ⟨m, (a.getD "Name").interp, a⟩ := by
  cases a
  case null => exact absurd h (by simp [JValue.isNull])
  all_goals rfl

theorem confToService_of_not_null (m : Modem) (a : JValue) (h : a.isNull = false) :
    confToService m a = some ⟨m, (a.getD "ID").interp, a⟩ := by
  cases a
  case null => exact absurd h (by simp [JValue.isNull])
  all_goals rfl

theorem confToTask_of_not_null (m : Modem) (a : JValue) (h : a.isNull = false) :
    confToTask m a = some ⟨m, (a.getD "ID").interp, a⟩ := by
  cases a
  case null => exact absurd h (by simp [JValue.isNull])
  all_goals rfl

theorem confToNode_of_not_null (m : Modem) (a : JValue) (h : a.isNull = false) :
    confToNode m a = some ⟨m, (a.getD "ID").interp, a⟩ := by
  cases a
  case null => exact absurd h (by simp [JValue.isNull])
  all_goals rfl

theorem confToPlugin_of_not_null (m : Modem) (a : JValue) (h : a.isNull = false) :
    confToPlugin m a = some (Plugin.assignConf { modem := m, id := a.getD "Id" } a) := by
  cases a
  case null => exact absurd h (by simp [JValue.isNull])
  all_goals rfl

@[simp]
theorem onDial_none (k : KOut) : onDial none k = k.toOutcome := rfl

@[simp]
theorem KOut.toOutcome_resolved (v : RtVal) : (KOut.resolved v).toOutcome = .resolved v := rfl

/-- Every single-dial operation of the library, applied to arbitrary
receivers, options and one transport callback delivery `(err, res)`.  The
two-dial `Image.tag` is treated separately. -/
def allRunOutcomes (dk : Docker) (ex : Exec) (em : ExecManager) (cf : ContainerFs)
    (c : Container) (cm : ContainerManager) (i : Image) (im : ImageManager)
    (pl : Plugin) (nw : Network) (nwm : NetworkManager) (vl : Volume)
    (vlm : VolumeManager) (sc : Secret) (scm : SecretManager) (sv : Service)
    (svm : ServiceManager) (sw : Swarm) (tk : Task) (tkm : TaskManager)
    (nd : Node) (ndm : NodeManager) (opts id : JValue)
    (err : Option ModemError) (res : JValue) : List Outcome :=
  [ Docker.authRun dk err res
  , Docker.infoRun dk err res
  , Docker.versionRun dk err res
  , Docker.pingRun dk err res
  , Docker.eventsRun dk err res
  , Exec.createRun ex err res
  , Exec.startRun ex err res
  , Exec.resizeRun ex err res
  , Exec.statusRun ex err res
  , ExecManager.createRun em err res
  , ContainerFs.infoRun cf err res
  , ContainerFs.getRun cf err res
  , ContainerFs.putRun cf err res
  , Container.statusRun c err res
  , Container.topRun c err res
  , Container.logsRun c err res
  , Container.changesRun c err res
  , Container.exportRun c opts err res
  , Container.statsRun c err res
  , Container.resizeRun c err res
  , Container.startRun c err res
  , Container.stopRun c err res
  , Container.restartRun c err res
  , Container.killRun c err res
  , Container.updateRun c err res
  , Container.renameRun c err res
  , Container.pauseRun c err res
  , Container.unpauseRun c err res
  , Container.attachRun c err res
  , Container.wsattachRun c err res
  , Container.waitRun c err res
  , Container.deleteRun c err res
  , Container.commitRun c err res
  , ContainerManager.listRun cm err res
  , ContainerManager.createRun cm err res
  , ContainerManager.pruneRun cm err res
  , Image.statusRun i err res
  , Image.historyRun i err res
  , Image.pushRun i err res
  , Image.removeRun i err res
  , Image.getRun i err res
  , ImageManager.searchRun im err res
  , ImageManager.listRun im err res
  , ImageManager.buildRun im err res
  , ImageManager.createRun im err res
  , ImageManager.getAllRun im err res
  , ImageManager.loadRun im err res
  , ImageManager.pruneRun im err res
  , Plugin.listRun pl err res
  , Plugin.upgradeRun pl opts err res
  , Plugin.createRun pl opts err res
  , Plugin.installRun pl opts err res
  , Plugin.statusRun pl opts id err res
  , Plugin.removeRun pl err res
  , Plugin.pushRun pl opts id err res
  , Plugin.setRun pl opts id err res
  , Plugin.enableRun pl opts id err res
  , Plugin.disableRun pl opts id err res
  , Network.statusRun nw err res
  , Network.removeRun nw err res
  , Network.connectRun nw err res
  , Network.disconnectRun nw err res
  , NetworkManager.listRun nwm err res
  , NetworkManager.createRun nwm err res
  , NetworkManager.pruneRun nwm err res
  , Volume.statusRun vl err res
  , Volume.removeRun vl err res
  , VolumeManager.listRun vlm err res
  , VolumeManager.createRun vlm err res
  , VolumeManager.pruneRun vlm err res
  , Secret.statusRun sc err res
  , Secret.removeRun sc err res
  , SecretManager.listRun scm err res
  , SecretManager.createRun scm err res
  , Service.updateRun sv err res
  , Service.statusRun sv err res
  , Service.removeRun sv err res
  , Service.logsRun sv err res
  , ServiceManager.createRun svm err res
  , ServiceManager.listRun svm err res
  , Swarm.initRun sw err res
  , Swarm.statusRun sw err res
  , Swarm.joinRun sw err res
  , Swarm.leaveRun sw err res
  , Swarm.updateRun sw err res
  , Task.statusRun tk err res
  , TaskManager.listRun tkm err res
  , Node.updateRun nd err res
  , Node.statusRun nd err res
  , Node.removeRun nd err res
  , NodeManager.listRun ndm err res ]

/-- C3 (amended): every operation rejects exactly when a dial callback
delivers an error, and then with exactly that error value, unmodified (no
retry, no wrapping); for `tag`, whose success path performs a follow-up
status dial, an error from either dial is surfaced the same way.  When no
error is delivered, no operation ever rejects; it resolves unless the
callback body cannot process the delivered result (the unguarded `list`
callbacks given a missing result, `create`/`commit` given a body without
the expected field, `export` asked to buffer a non-stream), in which case
a TypeError escapes the callback and the promise never settles, rather
than resolving. -/
theorem c3_amended : ∀ (dk : Docker) (ex : Exec) (em : ExecManager) (cf : ContainerFs)
    (c : Container) (cm : ContainerManager) (i : Image) (im : ImageManager)
    (pl : Plugin) (nw : Network) (nwm : NetworkManager) (vl : Volume)
    (vlm : VolumeManager) (sc : Secret) (scm : SecretManager) (sv : Service)
    (svm : ServiceManager) (sw : Swarm) (tk : Task) (tkm : TaskManager)
    (nd : Node) (ndm : NodeManager) (opts id res r1 r2 : JValue)
    (e : ModemError) (err2 : Option ModemError),
    allRunOutcomes dk ex em cf c cm i im pl nw nwm vl vlm sc scm sv svm sw tk tkm nd ndm
      opts id (some e) res = List.replicate 91 (.rejected e)
    ∧ ((allRunOutcomes dk ex em cf c cm i im pl nw nwm vl vlm sc scm sv svm sw tk tkm nd ndm
      opts id none res).all fun o => !o.isRejected) = true
    ∧ Image.tagRun i (some e) r1 err2 r2 = .rejected e
    ∧ Image.tagRun i none r1 (some e) r2 = .rejected e
    ∧ Image.tagRun i none r1 none r2 = .resolved (.image ⟨i.modem, i.id, r2⟩) := by
  intro dk ex em cf c cm i im pl nw nwm vl vlm sc scm sv svm sw tk tkm nd ndm
    opts id res r1 r2 e err2
  refine ⟨rfl, ?_, rfl, rfl, rfl⟩
  simp only [allRunOutcomes, List.all_cons, List.all_nil,
    Docker.authRun, Docker.infoRun, Docker.versionRun, Docker.pingRun, Docker.eventsRun,
    Exec.createRun, Exec.startRun, Exec.resizeRun, Exec.statusRun,
    ExecManager.createRun,
    ContainerFs.infoRun, ContainerFs.getRun, ContainerFs.putRun,
    Container.statusRun, Container.topRun, Container.logsRun, Container.changesRun,
    Container.exportRun, Container.statsRun, Container.resizeRun, Container.startRun,
    Container.stopRun, Container.restartRun, Container.killRun, Container.updateRun,
    Container.renameRun, Container.pauseRun, Container.unpauseRun, Container.attachRun,
    Container.wsattachRun, Container.waitRun, Container.deleteRun, Container.commitRun,
    ContainerManager.listRun, ContainerManager.createRun, ContainerManager.pruneRun,
    Image.statusRun, Image.historyRun, Image.pushRun, Image.removeRun, Image.getRun,
    ImageManager.searchRun, ImageManager.listRun, ImageManager.buildRun,
    ImageManager.createRun, ImageManager.getAllRun, ImageManager.loadRun,
    ImageManager.pruneRun,
    Plugin.listRun, Plugin.upgradeRun, Plugin.createRun, Plugin.installRun,
    Plugin.statusRun, Plugin.removeRun, Plugin.pushRun, Plugin.setRun,
    Plugin.enableRun, Plugin.disableRun,
    Network.statusRun, Network.removeRun, Network.connectRun, Network.disconnectRun,
    NetworkManager.listRun, NetworkManager.createRun, NetworkManager.pruneRun,
    Volume.statusRun, Volume.removeRun,
    VolumeManager.listRun, VolumeManager.createRun, VolumeManager.pruneRun,
    Secret.statusRun, Secret.removeRun,
    SecretManager.listRun, SecretManager.createRun,
    Service.updateRun, Service.statusRun, Service.removeRun, Service.logsRun,
    ServiceManager.createRun, ServiceManager.listRun,
    Swarm.initRun, Swarm.statusRun, Swarm.joinRun, Swarm.leaveRun, Swarm.updateRun,
    Task.statusRun, TaskManager.listRun,
    Node.updateRun, Node.statusRun, Node.removeRun, NodeManager.listRun,
    onDial_none, KOut.toOutcome_not_rejected, Bool.not_false, Bool.and_self]

/-- C3 counterexample: the image manager's `list`, with the callback
delivering no error but a missing result, neither resolves nor rejects:
the unguarded `images.map` throws. -/
theorem c3_counterexample :
    ImageManager.listRun ⟨⟨0⟩⟩ none .null = .thrown
    ∧ (ImageManager.listRun ⟨⟨0⟩⟩ none .null).isResolved = false :=
  ⟨rfl, rfl⟩

/-- C1 (amended): on a successful callback, every manager's `list` maps
each element of the returned array to a new Handle carrying that
element's identifier key and the element as snapshot, and resolves with
the ordered sequence (the empty array yields the empty sequence).  A
missing (null/undefined) result, however, is normalized to the empty
sequence only by the managers whose guard uses optional chaining
(network, node, task, plugin); the container, image and service lists map
the result unguarded, and the secret and volume lists read a property of
it, so for those five a missing result makes the callback throw instead
of resolving. -/
theorem c1_amended : ∀ (m : Modem) (pl : Plugin),
    (∀ confs, (confs.all fun v => !v.isNull) = true →
      ContainerManager.listRun ⟨m⟩ none (.arr confs) =
        .resolved (.containers (confs.map fun conf =>
          ⟨m, (conf.getD "Id").interp, .arr [], some conf⟩)))
    ∧ (∀ confs, (confs.all fun v => !v.isNull) = true →
      ImageManager.listRun ⟨m⟩ none (.arr confs) =
        .resolved (.images (confs.map fun conf => ⟨m, (conf.getD "Id").interp, conf⟩)))
    ∧ (∀ confs, (confs.all fun v => !v.isNull) = true →
      ServiceManager.listRun ⟨m⟩ none (.arr confs) =
        .resolved (.services (confs.map fun conf => ⟨m, (conf.getD "ID").interp, conf⟩)))
    ∧ (∀ confs, (confs.all fun v => !v.isNull) = true →
      SecretManager.listRun ⟨m⟩ none (.arr confs) =
        .resolved (.secrets (confs.map fun conf => ⟨m, (conf.getD "Name").interp, conf⟩)))
    ∧ (∀ confs, (confs.all fun v => !v.isNull) = true →
      VolumeManager.listRun ⟨m⟩ none (.obj [("Volumes", .arr confs)]) =
        .resolved (.volumes (confs.map fun conf => ⟨m, (conf.getD "Name").interp, conf⟩)))
    ∧ (∀ confs, (confs.all fun v => !v.isNull) = true →
      NetworkManager.listRun ⟨m⟩ none (.arr confs) =
        .resolved (.networks (confs.map fun conf => ⟨m, (conf.getD "Id").interp, conf⟩)))
    ∧ (∀ confs, (confs.all fun v => !v.isNull) = true →
      NodeManager.listRun ⟨m⟩ none (.arr confs) =
        .resolved (.nodes (confs.map fun conf => ⟨m, (conf.getD "ID").interp, conf⟩)))
    ∧ (∀ confs, (confs.all fun v => !v.isNull) = true →
      TaskManager.listRun ⟨m⟩ none (.arr confs) =
        .resolved (.tasks (confs.map fun conf => ⟨m, (conf.getD "ID").interp, conf⟩)))
    ∧ (∀ confs, (confs.all fun v => !v.isNull) = true →
      Plugin.listRun pl none (.arr confs) =
        .resolved (.plugins (confs.map fun conf =>
          Plugin.assignConf { modem := pl.modem, id := conf.getD "Id" } conf)))
    ∧ ContainerManager.listRun ⟨m⟩ none .null = .thrown
    ∧ ImageManager.listRun ⟨m⟩ none .null = .thrown
    ∧ ServiceManager.listRun ⟨m⟩ none .null = .thrown
    ∧ SecretManager.listRun ⟨m⟩ none .null = .thrown
    ∧ VolumeManager.listRun ⟨m⟩ none .null = .thrown
    ∧ NetworkManager.listRun ⟨m⟩ none .null = .resolved (.networks [])
    ∧ NodeManager.listRun ⟨m⟩ none .null = .resolved (.nodes [])
    ∧ TaskManager.listRun ⟨m⟩ none .null = .resolved (.tasks [])
    ∧ Plugin.listRun pl none .null = .resolved (.plugins []) := by
  intro m pl
  have elem : ∀ (confs : List JValue), (confs.all fun v => !v.isNull) = true →
      ∀ a ∈ confs, a.isNull = false := by
    intro confs h a ha
    have := List.all_eq_true.mp h a ha
    simpa using this
  refine ⟨?_, ?_, ?_, ?_, ?_, ?_, ?_, ?_, ?_, rfl, rfl, rfl, rfl, rfl, rfl, rfl, rfl, rfl⟩
  · intro confs h
    have hmap := jsMap_eq_map (confToContainer m)
      (fun conf => ⟨m, (conf.getD "Id").interp, .arr [], some conf⟩) confs
      (fun a ha => confToContainer_of_not_null m a (elem confs h a ha))
    simp [ContainerManager.listRun, hmap]
  · intro confs h
    have hmap := jsMap_eq_map (confToImage m)
      (fun conf => ⟨m, (conf.getD "Id").interp, conf⟩) confs
      (fun a ha => confToImage_of_not_null m a (elem confs h a ha))
    simp [ImageManager.listRun, hmap]
  · intro confs h
    have hmap := jsMap_eq_map (confToService m)
      (fun conf => ⟨m, (conf.getD "ID").interp, conf⟩) confs
      (fun a ha => confToService_of_not_null m a (elem confs h a ha))
    simp [ServiceManager.listRun, hmap]
  · intro confs h
    have hmap := jsMap_eq_map (confToSecret m)
      (fun conf => ⟨m, (conf.getD "Name").interp, conf⟩) confs
      (fun a ha => confToSecret_of_not_null m a (elem confs h a ha))
    cases confs with
    | nil => rfl
    | cons x xs => simp [SecretManager.listRun, jsLenFalsy, hmap]
  · intro confs h
    have hmap := jsMap_eq_map (confToVolume m)
      (fun conf => ⟨m, (conf.getD "Name").interp, conf⟩) confs
      (fun a ha => confToVolume_of_not_null m a (elem confs h a ha))
    cases confs with
    | nil => rfl
    | cons x xs =>
      simp [VolumeManager.listRun, jsLenFalsy, JValue.getD, JValue.get?, hmap]
  · intro confs h
    have hmap := jsMap_eq_map (confToNetwork m)
      (fun conf => ⟨m, (conf.getD "Id").interp, conf⟩) confs
      (fun a ha => confToNetwork_of_not_null m a (elem confs h a ha))
    cases confs with
    | nil => rfl
    | cons x xs => simp [NetworkManager.listRun, jsLenFalsy, hmap]
  · intro confs h
    have hmap := jsMap_eq_map (confToNode m)
      (fun conf => ⟨m, (conf.getD "ID").interp, conf⟩) confs
      (fun a ha => confToNode_of_not_null m a (elem confs h a ha))
    cases confs with
    | nil => rfl
    | cons x xs => simp [NodeManager.listRun, jsLenFalsy, hmap]
  · intro confs h
    have hmap := jsMap_eq_map (confToTask m)
      (fun conf => ⟨m, (conf.getD "ID").interp, conf⟩) confs
      (fun a ha => confToTask_of_not_null m a (elem confs h a ha))
    cases confs with
    | nil => rfl
    | cons x xs => simp [TaskManager.listRun, jsLenFalsy, hmap]
  · intro confs h
    have hmap := jsMap_eq_map (confToPlugin pl.modem)
      (fun conf => Plugin.assignConf { modem := pl.modem, id := conf.getD "Id" } conf) confs
      (fun a ha => confToPlugin_of_not_null pl.modem a (elem confs h a ha))
    cases confs with
    | nil => rfl
    | cons x xs => simp [Plugin.listRun, jsLenFalsy, hmap]

/-- C1 counterexample: the container manager's `list`, on a callback with
no error and a missing result, throws (the promise never resolves with an
empty sequence). -/
theorem c1_counterexample :
    ContainerManager.listRun ⟨⟨0⟩⟩ none .null = .thrown := rfl

/-- C1 witness: the container clause of the amended theorem evaluated at a
one-element collection. -/
theorem c1_witness :
    (([JValue.obj [("Id", .str "a")]].all fun v => !v.isNull) = true)
    ∧ ContainerManager.listRun ⟨⟨0⟩⟩ none (.arr [.obj [("Id", .str "a")]]) =
        .resolved (.containers [⟨⟨0⟩, "a", .arr [], some (.obj [("Id", .str "a")])⟩]) :=
  ⟨by decide, by
    show ContainerManager.listRun ⟨⟨0⟩⟩ none (.arr [.obj [("Id", .str "a")]]) =
      .resolved (.containers (List.map (fun conf =>
        ⟨⟨0⟩, (conf.getD "Id").interp, .arr [], some conf⟩) [.obj [("Id", .str "a")]]))
    exact (c1_amended ⟨0⟩ { modem := ⟨0⟩ }).1 [.obj [("Id", .str "a")]] (by decide)⟩

/-- C2 counterexample: with the `stream` option set and the transport
handing over a live stream that emits the chunks `a` and `b`, `export`
resolves with the buffered string `ab`, not with the stream handle the
claim promises for that case. -/
theorem c2_counterexample :
    Container.exportRun ⟨⟨0⟩, "c0", .arr [], none⟩ (.obj [("stream", .bool true)]) none
      (.stream ["a", "b"]) = .resolved (.json (.str "ab")) := rfl

/-- C2 (amended): `export` branches on the `stream` option in the reverse
direction of the claim.  The descriptor is streamed exactly when
`opts.stream` is truthy; with the option unset the callback resolves the
delivered (transport-buffered, since `isStream` is false) result
directly; with the option set the callback itself buffers the live stream
and resolves the concatenation of its emitted chunks as a single
string. -/
theorem c2_amended : ∀ (c : Container) (opts res : JValue) (chunks : List String),
    (Container.exportCall c opts).isStream = (opts.getD "stream").truthy
    ∧ ((opts.getD "stream").truthy = false →
        Container.exportRun c opts none res = .resolved (.json res))
    ∧ ((opts.getD "stream").truthy = true →
        Container.exportRun c opts none (.stream chunks) =
          .resolved (.json (.str (String.join chunks)))) := by
  intro c opts res chunks
  refine ⟨rfl, fun h => ?_, fun h => ?_⟩
  · simp [Container.exportRun, h]
  · simp [Container.exportRun, h]

/-- C2 witness: both branches of the amended theorem at concrete
options. -/
theorem c2_witness :
    ((JValue.obj []).getD "stream").truthy = false
    ∧ Container.exportRun ⟨⟨0⟩, "c0", .arr [], none⟩ (.obj []) none (.str "x") =
        .resolved (.json (.str "x"))
    ∧ ((JValue.obj [("stream", .bool true)]).getD "stream").truthy = true
    ∧ Container.exportRun ⟨⟨0⟩, "c0", .arr [], none⟩ (.obj [("stream", .bool true)]) none
        (.stream ["a"]) = .resolved (.json (.str (String.join ["a"]))) :=
  ⟨by decide,
   (c2_amended ⟨⟨0⟩, "c0", .arr [], none⟩ (.obj []) (.str "x") []).2.1 (by decide),
   by decide,
   (c2_amended ⟨⟨0⟩, "c0", .arr [], none⟩ (.obj [("stream", .bool true)]) .null ["a"]).2.2
     (by decide)⟩

/-- C4 counterexample: `update` resolves a freshly constructed container
(whose snapshot slot is uninitialised and whose `Warnings` holds the raw
callback result), not the receiver: applied to a receiver carrying a
snapshot, the resolved handle and the receiver differ in their `data` and
`Warnings` fields. -/
theorem c4_counterexample :
    Container.updateRun ⟨⟨0⟩, "c0", .arr [], some (.obj [("k", .str "v")])⟩ none
      (.arr [.str "w"]) = .resolved (.container ⟨⟨0⟩, "c0", .arr [.str "w"], none⟩)
    ∧ (Container.mk ⟨0⟩ "c0" (.arr [.str "w"]) none).data = none
    ∧ (Container.mk ⟨0⟩ "c0" (.arr []) (some (.obj [("k", .str "v")]))).data =
        some (.obj [("k", .str "v")]) :=
  ⟨rfl, rfl, rfl⟩

/-- C4 (amended): of the state-changing container actions, `start`,
`stop`, `restart`, `kill`, `pause`, `unpause` and `rename` resolve with
the receiver object itself, so chaining on the same handle works; but
`update` resolves with a freshly constructed container that carries the
same identifier and modem, the callback result in `Warnings`, and no
snapshot -- not the receiver.  (`Node.update` likewise resolves a fresh
handle with the same identifier.) -/
theorem c4_amended : ∀ (c : Container) (nd : Node) (res : JValue),
    Container.startRun c none res = .resolved (.container c)
    ∧ Container.stopRun c none res = .resolved (.container c)
    ∧ Container.restartRun c none res = .resolved (.container c)
    ∧ Container.killRun c none res = .resolved (.container c)
    ∧ Container.pauseRun c none res = .resolved (.container c)
    ∧ Container.unpauseRun c none res = .resolved (.container c)
    ∧ Container.renameRun c none res = .resolved (.container c)
    ∧ Container.updateRun c none res = .resolved (.container ⟨c.modem, c.id, res, none⟩)
    ∧ Node.updateRun nd none res = .resolved (.node ⟨nd.modem, nd.id, res⟩) :=
  fun _ _ _ => ⟨rfl, rfl, rfl, rfl, rfl, rfl, rfl, rfl, rfl⟩

/-- C5 counterexample: `Exec.status` takes the new handle's identifier
from the response body, not from the receiver: a receiver with id `e1`
and a body whose `Id` is `e2` resolves a handle with id `e2`. -/
theorem c5_counterexample :
    Exec.statusRun ⟨⟨0⟩, ⟨⟨0⟩, "c0", .arr [], none⟩, "e1", .obj []⟩ none
      (.obj [("Id", .str "e2")]) =
      .resolved (.exec ⟨⟨0⟩, ⟨⟨0⟩, "c0", .arr [], none⟩, "e2", .obj [("Id", .str "e2")]⟩)
    ∧ (Exec.mk ⟨0⟩ ⟨⟨0⟩, "c0", .arr [], none⟩ "e1" (.obj [])).id = "e1" :=
  ⟨rfl, rfl⟩

/-- C5 (amended): for the container, image, volume, network, secret,
service, task, node and swarm handles, a successful `status` resolves a
newly constructed handle with the receiver's identifier (none for the
id-less swarm) and the fetched body as its snapshot; the receiver is
never mutated (the semantics is a pure function of the receiver).  The
two exceptions: `Exec.status` constructs the new handle with the
identifier taken from the response body, and `Plugin.status` uses the
processed argument identifier (the receiver's own id only as a fallback)
and merges the body onto the handle's fields instead of a snapshot
slot. -/
theorem c5_amended : ∀ (c : Container) (i : Image) (v : Volume) (nw : Network)
    (sc : Secret) (sv : Service) (tk : Task) (nd : Node) (sw : Swarm) (ex : Exec)
    (p : Plugin) (opts id conf : JValue) (fields : List (String × JValue)),
    Container.statusRun c none conf = .resolved (.container ⟨c.modem, c.id, .arr [], some conf⟩)
    ∧ Image.statusRun i none conf = .resolved (.image ⟨i.modem, i.id, conf⟩)
    ∧ Volume.statusRun v none conf = .resolved (.volume ⟨v.modem, v.id, conf⟩)
    ∧ Network.statusRun nw none conf = .resolved (.network ⟨nw.modem, nw.id, conf⟩)
    ∧ Secret.statusRun sc none conf = .resolved (.secret ⟨sc.modem, sc.id, conf⟩)
    ∧ Service.statusRun sv none conf = .resolved (.service ⟨sv.modem, sv.id, conf⟩)
    ∧ Task.statusRun tk none conf = .resolved (.task ⟨tk.modem, tk.id, conf⟩)
    ∧ Node.statusRun nd none conf = .resolved (.node ⟨nd.modem, nd.id, conf⟩)
    ∧ Swarm.statusRun sw none conf = .resolved (.swarm ⟨sw.modem, conf⟩)
    ∧ Exec.statusRun ex none (.obj fields) =
        .resolved (.exec ⟨ex.modem, ex.container,
          ((JValue.obj fields).getD "Id").interp, .obj fields⟩)
    ∧ Plugin.statusRun p opts id none conf =
        .resolved (.plugin (Plugin.assignConf
          { modem := p.modem, id := (p.processArguments opts id).2 } conf)) :=
  fun _ _ _ _ _ _ _ _ _ _ _ _ _ _ _ =>
    ⟨rfl, rfl, rfl, rfl, rfl, rfl, rfl, rfl, rfl, rfl, rfl⟩

/-- C6 (confirmed): every manager's `get(id)` is a pure synchronous
construction: it performs no dial, cannot fail, and yields a bare handle
whose identifier is exactly `id`, whose modem is the manager's, and which
carries no snapshot data (the container handle's `data` field is the
TS-declared-but-uninitialised `undefined`; the other handles initialise
theirs to the empty object). -/
theorem c6_confirmed : ∀ (cm : ContainerManager) (im : ImageManager)
    (vm : VolumeManager) (nm : NetworkManager) (sm : SecretManager)
    (svm : ServiceManager) (tm : TaskManager) (ndm : NodeManager)
    (em : ExecManager) (id : String),
    cm.get id = ⟨cm.modem, id, .arr [], none⟩
    ∧ im.get id = ⟨im.modem, id, .obj []⟩
    ∧ vm.get id = ⟨vm.modem, id, .obj []⟩
    ∧ nm.get id = ⟨nm.modem, id, .obj []⟩
    ∧ sm.get id = ⟨sm.modem, id, .obj []⟩
    ∧ svm.get id = ⟨svm.modem, id, .obj []⟩
    ∧ tm.get id = ⟨tm.modem, id, .obj []⟩
    ∧ ndm.get id = ⟨ndm.modem, id, .obj []⟩
    ∧ em.get id = ⟨em.modem, em.container, id, .obj []⟩ :=
  fun _ _ _ _ _ _ _ _ _ _ => ⟨rfl, rfl, rfl, rfl, rfl, rfl, rfl, rfl, rfl⟩

/-- C7 counterexample: the container's `delete` descriptor has no entry at
all for status code 409, so the conflict case is not mapped to the
`conflict` label there. -/
theorem c7_counterexample :
    (Container.deleteCall ⟨⟨0⟩, "c0", .arr [], none⟩ .null).statusCodes.lookup 409 = none :=
  rfl

/-- C7 (amended): only the volume and image `remove` descriptors map 409
to the `conflict` label; the container `delete` and the network, secret,
service, node and plugin `remove` descriptors have no 409 entry (an
actual 409 there surfaces as an opaque transport error for an
unrecognised status).  On success, every remove/delete resolves the raw
remote response unchanged. -/
theorem c7_amended : ∀ (c : Container) (i : Image) (v : Volume) (nw : Network)
    (sc : Secret) (sv : Service) (nd : Node) (p : Plugin) (opts id res : JValue),
    (Volume.removeCall v opts).statusCodes.lookup 409 = some (.label "conflict")
    ∧ (Image.removeCall i opts).statusCodes.lookup 409 = some (.label "conflict")
    ∧ (Container.deleteCall c opts).statusCodes.lookup 409 = none
    ∧ (Network.removeCall nw opts).statusCodes.lookup 409 = none
    ∧ (Secret.removeCall sc opts).statusCodes.lookup 409 = none
    ∧ (Service.removeCall sv opts).statusCodes.lookup 409 = none
    ∧ (Node.removeCall nd opts).statusCodes.lookup 409 = none
    ∧ (Plugin.removeCall p opts id).statusCodes.lookup 409 = none
    ∧ Volume.removeRun v none res = .resolved (.json res)
    ∧ Image.removeRun i none res = .resolved (.json res)
    ∧ Container.deleteRun c none res = .resolved (.json res)
    ∧ Network.removeRun nw none res = .resolved (.json res)
    ∧ Secret.removeRun sc none res = .resolved (.json res)
    ∧ Service.removeRun sv none res = .resolved (.json res)
    ∧ Node.removeRun nd none res = .resolved (.json res)
    ∧ Plugin.removeRun p none res = .resolved (.json res) :=
  fun _ _ _ _ _ _ _ _ _ _ _ =>
    ⟨rfl, rfl, rfl, rfl, rfl, rfl, rfl, rfl, rfl, rfl, rfl, rfl, rfl, rfl, rfl, rfl⟩

/-- C8 counterexample: the container manager's `prune` descriptor path is
`/containers/prune`, which does not end with the query placeholder. -/
theorem c8_counterexample :
    (ContainerManager.pruneCall ⟨⟨0⟩⟩ .null).path = "/containers/prune"
    ∧ lastCharOf "/containers/prune" = some 'e' :=
  ⟨rfl, rfl⟩

/-- C8 (amended): with seven exceptions, every request descriptor path
ends with the trailing query placeholder.  The exceptions: the four prune
descriptors (`/containers/prune`, `/images/prune`, `/networks/prune`,
`/volumes/prune`), the volume and secret list descriptors (`/volumes`,
`/secrets`), all of which carry no placeholder at all, and the container
filesystem `get` descriptor, whose path embeds the `path` option and ends
with an ampersand. -/
theorem c8_amended : ∀ (dk : Docker) (ex : Exec) (em : ExecManager) (cf : ContainerFs)
    (c : Container) (cm : ContainerManager) (i : Image) (im : ImageManager)
    (pl : Plugin) (nw : Network) (nwm : NetworkManager) (vl : Volume)
    (vlm : VolumeManager) (sc : Secret) (scm : SecretManager) (sv : Service)
    (svm : ServiceManager) (sw : Swarm) (tk : Task) (tkm : TaskManager)
    (nd : Node) (ndm : NodeManager) (opts auth id : JValue),
    lastCharOf (Docker.authCall dk opts).path = some '?'
    ∧ lastCharOf (Docker.infoCall dk).path = some '?'
    ∧ lastCharOf (Docker.versionCall dk).path = some '?'
    ∧ lastCharOf (Docker.pingCall dk).path = some '?'
    ∧ lastCharOf (Docker.eventsCall dk opts).path = some '?'
    ∧ lastCharOf (Exec.createCall ex opts).path = some '?'
    ∧ lastCharOf (Exec.startCall ex opts).path = some '?'
    ∧ lastCharOf (Exec.resizeCall ex opts).path = some '?'
    ∧ lastCharOf (Exec.statusCall ex opts).path = some '?'
    ∧ lastCharOf (ExecManager.createCall em opts).path = some '?'
    ∧ lastCharOf (ContainerFs.infoCall cf opts).path = some '?'
    ∧ lastCharOf (ContainerFs.putCall cf opts).path = some '?'
    ∧ lastCharOf (Container.statusCall c opts).path = some '?'
    ∧ lastCharOf (Container.topCall c opts).path = some '?'
    ∧ lastCharOf (Container.logsCall c opts).path = some '?'
    ∧ lastCharOf (Container.changesCall c).path = some '?'
    ∧ lastCharOf (Container.exportCall c opts).path = some '?'
    ∧ lastCharOf (Container.statsCall c opts).path = some '?'
    ∧ lastCharOf (Container.resizeCall c opts).path = some '?'
    ∧ lastCharOf (Container.startCall c opts).path = some '?'
    ∧ lastCharOf (Container.stopCall c opts).path = some '?'
    ∧ lastCharOf (Container.restartCall c opts).path = some '?'
    ∧ lastCharOf (Container.killCall c opts).path = some '?'
    ∧ lastCharOf (Container.updateCall c opts).path = some '?'
    ∧ lastCharOf (Container.renameCall c opts).path = some '?'
    ∧ lastCharOf (Container.pauseCall c).path = some '?'
    ∧ lastCharOf (Container.unpauseCall c).path = some '?'
    ∧ lastCharOf (Container.attachCall c opts).path = some '?'
    ∧ lastCharOf (Container.wsattachCall c opts).path = some '?'
    ∧ lastCharOf (Container.waitCall c).path = some '?'
    ∧ lastCharOf (Container.deleteCall c opts).path = some '?'
    ∧ lastCharOf (Container.commitCall c opts).path = some '?'
    ∧ lastCharOf (ContainerManager.listCall cm opts).path = some '?'
    ∧ lastCharOf (ContainerManager.createCall cm opts).path = some '?'
    ∧ lastCharOf (Image.statusCall i opts).path = some '?'
    ∧ lastCharOf (Image.historyCall i opts).path = some '?'
    ∧ lastCharOf (Image.pushCall i auth opts).path = some '?'
    ∧ lastCharOf (Image.tagCall i opts).path = some '?'
    ∧ lastCharOf (Image.removeCall i opts).path = some '?'
    ∧ lastCharOf (Image.getCall i opts).path = some '?'
    ∧ lastCharOf (ImageManager.searchCall im opts).path = some '?'
    ∧ lastCharOf (ImageManager.listCall im opts).path = some '?'
    ∧ lastCharOf (ImageManager.buildCall im opts auth).path = some '?'
    ∧ lastCharOf (ImageManager.createCall im auth opts).path = some '?'
    ∧ lastCharOf (ImageManager.getAllCall im opts).path = some '?'
    ∧ lastCharOf (ImageManager.loadCall im opts).path = some '?'
    ∧ lastCharOf (Plugin.listCall pl opts).path = some '?'
    ∧ lastCharOf (Plugin.upgradeCall pl opts).path = some '?'
    ∧ lastCharOf (Plugin.createCall pl opts).path = some '?'
    ∧ lastCharOf (Plugin.installCall pl opts).path = some '?'
    ∧ lastCharOf (Plugin.statusCall pl opts id).path = some '?'
    ∧ lastCharOf (Plugin.removeCall pl opts id).path = some '?'
    ∧ lastCharOf (Plugin.pushCall pl opts id).path = some '?'
    ∧ lastCharOf (Plugin.setCall pl opts id).path = some '?'
    ∧ lastCharOf (Plugin.enableCall pl opts id).path = some '?'
    ∧ lastCharOf (Plugin.disableCall pl opts id).path = some '?'
    ∧ lastCharOf (Network.statusCall nw opts).path = some '?'
    ∧ lastCharOf (Network.removeCall nw opts).path = some '?'
    ∧ lastCharOf (Network.connectCall nw opts).path = some '?'
    ∧ lastCharOf (Network.disconnectCall nw opts).path = some '?'
    ∧ lastCharOf (NetworkManager.listCall nwm opts).path = some '?'
    ∧ lastCharOf (NetworkManager.createCall nwm opts).path = some '?'
    ∧ lastCharOf (Volume.statusCall vl opts).path = some '?'
    ∧ lastCharOf (Volume.removeCall vl opts).path = some '?'
    ∧ lastCharOf (VolumeManager.createCall vlm opts).path = some '?'
    ∧ lastCharOf (Secret.statusCall sc opts).path = some '?'
    ∧ lastCharOf (Secret.removeCall sc opts).path = some '?'
    ∧ lastCharOf (SecretManager.createCall scm opts).path = some '?'
    ∧ lastCharOf (Service.updateCall sv opts auth).path = some '?'
    ∧ lastCharOf (Service.statusCall sv opts).path = some '?'
    ∧ lastCharOf (Service.removeCall sv opts).path = some '?'
    ∧ lastCharOf (Service.logsCall sv opts).path = some '?'
    ∧ lastCharOf (ServiceManager.createCall svm opts auth).path = some '?'
    ∧ lastCharOf (ServiceManager.listCall svm opts).path = some '?'
    ∧ lastCharOf (Swarm.initCall sw opts).path = some '?'
    ∧ lastCharOf (Swarm.statusCall sw opts).path = some '?'
    ∧ lastCharOf (Swarm.joinCall sw opts).path = some '?'
    ∧ lastCharOf (Swarm.leaveCall sw opts).path = some '?'
    ∧ lastCharOf (Swarm.updateCall sw opts).path = some '?'
    ∧ lastCharOf (Task.statusCall tk opts).path = some '?'
    ∧ lastCharOf (TaskManager.listCall tkm opts).path = some '?'
    ∧ lastCharOf (Node.updateCall nd opts).path = some '?'
    ∧ lastCharOf (Node.statusCall nd opts).path = some '?'
    ∧ lastCharOf (Node.removeCall nd opts).path = some '?'
    ∧ lastCharOf (NodeManager.listCall ndm opts).path = some '?'
    ∧ lastCharOf (ContainerFs.getCall cf opts).path = some '&'
    ∧ (ContainerManager.pruneCall cm opts).path = "/containers/prune"
    ∧ (ImageManager.pruneCall im opts).path = "/images/prune"
    ∧ (NetworkManager.pruneCall nwm opts).path = "/networks/prune"
    ∧ (VolumeManager.pruneCall vlm opts).path = "/volumes/prune"
    ∧ (VolumeManager.listCall vlm opts).path = "/volumes"
    ∧ (SecretManager.listCall scm opts).path = "/secrets" := by
  intro dk ex em cf c cm i im pl nw nwm vl vlm sc scm sv svm sw tk tkm nd ndm opts auth id
  repeat' apply And.intro
  all_goals first
    | rfl
    | exact lastChar_append _ _ _ (by decide)

/-- C9 counterexample: `commit` removes the first occurrence of `sha256:`
anywhere in the response `Id`, not only a leading prefix: for the Id
`absha256:cd`, which does not start with the prefix (its first seven
characters are `absha25`) but contains it, the resolved image identifier
is `abcd` rather than the unchanged Id the claim requires. -/
theorem c9_counterexample :
    Container.commitRun ⟨⟨0⟩, "ctr", .arr [], none⟩ none
      (.obj [("Id", .str "absha256:cd")]) = .resolved (.image ⟨⟨0⟩, "abcd", .obj []⟩)
    ∧ "absha256:cd".data.take 7 = "absha25".data
    ∧ containsSeq "absha256:cd".data "sha256:".data = true :=
  ⟨rfl, by decide, by decide⟩

/-- C9 (amended): a successful `commit` resolves a fresh Image handle
(never the receiver container) whose identifier is the response `Id` with
the first occurrence of the substring `sha256:` removed; in particular a
leading `sha256:` prefix is stripped, and an `Id` not containing the
substring at all is kept unchanged.  A missing response body makes the
callback throw. -/
theorem c9_amended : ∀ (c : Container) (s : String),
    Container.commitRun c none (.obj [("Id", .str s)]) =
      .resolved (.image ⟨c.modem, jsReplaceOnce s "sha256:", .obj []⟩)
    ∧ (∀ t : String, jsReplaceOnce ("sha256:" ++ t) "sha256:" = t)
    ∧ (containsSeq s.data "sha256:".data = false → jsReplaceOnce s "sha256:" = s)
    ∧ Container.commitRun c none .null = .thrown :=
  fun _c s =>
    ⟨rfl, jsReplaceOnce_sha_prefix, jsReplaceOnce_of_not_contains s "sha256:", rfl⟩

/-- C9 witness: an identifier without the substring is kept unchanged. -/
theorem c9_witness :
    containsSeq "alpine".data "sha256:".data = false
    ∧ jsReplaceOnce "alpine" "sha256:" = "alpine" :=
  ⟨by decide, (c9_amended ⟨⟨0⟩, "ctr", .arr [], none⟩ "alpine").2.2.1 (by decide)⟩

/-- C10 counterexample: when `opts` is the string `foo` and no id is
supplied, the processed options are the string itself, not the empty
mapping the claim requires. -/
theorem c10_counterexample :
    Plugin.processArguments ⟨⟨0⟩, .null, []⟩ (.str "foo") .null =
      (.str "foo", .str "foo") := rfl

/-- C10 (amended): when `opts` is a (non-empty) string and the id is
absent, the string becomes the identifier but also remains the options
value unchanged -- only a falsy `opts` is normalised to the empty
mapping; an absent or falsy id falls back to the receiver's id only when
that is truthy; and when no identifier is available anywhere the
processed id stays `undefined`, which the descriptor path embeds as the
literal text `undefined`. -/
theorem c10_amended : ∀ (p : Plugin) (opts id : JValue) (s : String),
    (s ≠ "" → p.processArguments (.str s) .null = (.str s, .str s))
    ∧ (id.truthy = false → opts.isStr = false → p.id.truthy = true →
        p.processArguments opts id = ((if opts.truthy then opts else .obj []), p.id))
    ∧ (opts.truthy = false → (p.processArguments opts id).1 = .obj [])
    ∧ Plugin.processArguments ⟨p.modem, .null, []⟩ (.obj []) .null = (.obj [], .null)
    ∧ (Plugin.statusCall ⟨p.modem, .null, []⟩ (.obj []) .null).path = "/plugins/undefined?" := by
  intro p opts id s
  refine ⟨fun hs => ?_, fun h1 h2 h3 => ?_, fun h => ?_, rfl, rfl⟩
  · simp [Plugin.processArguments, JValue.isStr, JValue.truthy, bne_iff_ne, hs]
  · cases htr : opts.truthy <;>
      simp [Plugin.processArguments, h1, h2, h3, htr]
  · simp [Plugin.processArguments, h]

/-- C10 witness: the three conditional clauses of the amended theorem at
concrete inputs. -/
theorem c10_witness :
    ("foo" ≠ ""
      ∧ Plugin.processArguments ⟨⟨0⟩, .null, []⟩ (.str "foo") .null =
          (.str "foo", .str "foo"))
    ∧ ((JValue.null).truthy = false
      ∧ (JValue.obj [("k", .str "v")]).isStr = false
      ∧ (JValue.str "self").truthy = true
      ∧ Plugin.processArguments ⟨⟨0⟩, .str "self", []⟩ (.obj [("k", .str "v")]) .null =
          ((if (JValue.obj [("k", .str "v")]).truthy then .obj [("k", .str "v")]
            else .obj []), .str "self"))
    ∧ ((JValue.null).truthy = false
      ∧ (Plugin.processArguments ⟨⟨0⟩, .null, []⟩ .null .null).1 = .obj []) :=
  ⟨⟨by decide, (c10_amended ⟨⟨0⟩, .null, []⟩ .null .null "foo").1 (by decide)⟩,
   ⟨rfl, rfl, by decide,
    (c10_amended ⟨⟨0⟩, .str "self", []⟩ (.obj [("k", .str "v")]) .null "x").2.1
      rfl rfl (by decide)⟩,
   ⟨rfl, (c10_amended ⟨⟨0⟩, .null, []⟩ .null .null "x").2.2.1 rfl⟩⟩

end DockerApi



